import Mathlib

/-!
Verification of the EvacuationSimulator core (`src/sim`): a shallow embedding of
the grid A* pathfinder (`sim/pathfinding/grid_astar.py`), the priority decision
engine (`sim/policy/decision_engine.py`), the agent model (`sim/agents/agent.py`,
`sim/agents/agent_manager.py`) and the simulator tick loop
(`sim/engine/simulator.py`), together with theorems checking the natural-language
specification against the code.

Conventions of the embedding:
* Python floats are embedded as rationals (`ℚ`).  Every decimal literal of the
  source (`0.5`, `0.25`, `0.8`, `0.85`, `0.95`, `1.414`, ...) is taken at its
  exact decimal value; the source's binary-float value differs from it by less
  than `2⁻⁵²`, and no claim in scope depends on that difference.
* Python `dict`s keyed by cell positions or room ids are embedded as insertion
  ordered association lists; lookup returns the most recent binding.
* Python `int(x)` truncates toward zero and `round(x)` rounds half to even;
  both are embedded explicitly below.
* The package `sim/env` (class `Environment`, `Room` methods, the hazard cell
  field) is imported by every engine module but is absent from the sources.
  Its pure queries are embedded as function-valued fields of `Env`, and the
  behaviour the claims depend on is modelled from the spec; such definitions
  carry a doc comment starting with `Modelled from the spec:`.
-/

/-- Python `int(q)`: truncation toward zero. -/
def pyTrunc (q : ℚ) : ℤ := if 0 ≤ q then ⌊q⌋ else ⌈q⌉

/-- Python `round(q)` for a half-integer-free use: round half to even. -/
def pyRound (q : ℚ) : ℤ :=
  let f : ℤ := ⌊q⌋
  let r : ℚ := q - f
  if r < 1/2 then f
  else if 1/2 < r then f + 1
  else if Even f then f else f + 1

/-- Python `abs` on a rational, in an executable form (the lattice `|·|`
of Mathlib does not reduce in the kernel). -/
def qabs (q : ℚ) : ℚ := if q < 0 then -q else q

/-- Python `max` on rationals, in an executable form. -/
def qmax (a b : ℚ) : ℚ := if a < b then b else a

theorem qabs_eq_abs (q : ℚ) : qabs q = |q| := by
  unfold qabs
  rcases lt_or_ge q 0 with h | h
  · simp [h, abs_of_neg h]
  · simp [not_lt.mpr h, abs_of_nonneg h]

theorem qmax_eq_max (a b : ℚ) : qmax a b = max a b := by
  unfold qmax
  rcases lt_or_ge a b with h | h
  · simp [h, max_eq_right h.le]
  · simp [not_lt.mpr h, max_eq_left h]

/-- A grid-cell key `(x, y)`: the cell center, a pair of rationals
(cells are 0.5 m squares centered at odd multiples of 0.25). -/
abbrev Pos : Type := ℚ × ℚ

/-- `sim/env` hazard cell state: `danger_level` and `is_burning` are the
fields the engine reads (`grid_astar.py:221-223`, `simulator.py:145`,
`decision_engine.py:104`); `is_wall` and `room_id` are the further cell
fields of spec §3, used by the spec-modelled hazard tick. -/
structure GridCell where
  danger_level : ℚ
  is_burning : Bool
  is_wall : Bool := false
  room_id : Option String := none
deriving DecidableEq, Repr

/-- Insertion-ordered association-list lookup (Python dict read:
most recent binding wins; we cons updates at the front). -/
def alistLookup {α : Type} [DecidableEq α] {β : Type} :
    List (α × β) → α → Option β
  | [], _ => none
  | p :: ps, k => if p.1 = k then some p.2 else alistLookup ps k

/-- `GridPathfinder` state: the hazard-system cell dict and the wall-cell set
(`grid_astar.py:11-21`).  `_build_wall_cells` derives `wall_cells` from the
layout once at construction; the claims in scope treat the wall set as given,
so it is carried as data. -/
structure Pathfinder where
  cells : List (Pos × GridCell)
  wallCells : List Pos
deriving DecidableEq, Repr

/-- Cell lookup in the hazard-system dict. -/
def lookup_cell (pf : Pathfinder) (p : Pos) : Option GridCell :=
  alistLookup pf.cells p

/-- `GridPathfinder._heuristic` (grid_astar.py:248-251): Manhattan distance
between the two cell centers. -/
def heuristic (c1 c2 : Pos) : ℚ :=
  qabs (c1.1 - c2.1) + qabs (c1.2 - c2.2)

/-- `GridPathfinder._is_valid_cell` (grid_astar.py:204-226): not a wall,
present in the cell dict, and (when avoiding danger) neither burning nor
above the danger threshold. -/
def is_valid_cell (pf : Pathfinder) (cell : Pos)
    (avoid_danger : Bool) (danger_threshold : ℚ) : Bool :=
  if cell ∈ pf.wallCells then false
  else
    match lookup_cell pf cell with
    | none => false
    | some c =>
      if avoid_danger then
        if c.is_burning then false
        else if danger_threshold < c.danger_level then false
        else true
      else true

/-- `GridPathfinder._edge_cost` (grid_astar.py:228-246): 0.5 for straight
moves, `1.414 × 0.5` for diagonal moves, plus `danger × 10` when avoiding
danger and the target cell exists. -/
def edge_cost (pf : Pathfinder) (from_cell to_cell : Pos)
    (avoid_danger : Bool) : ℚ :=
  let dx : ℚ := qabs (to_cell.1 - from_cell.1)
  let dy : ℚ := qabs (to_cell.2 - from_cell.2)
  let base_cost : ℚ := if 0 < dx ∧ 0 < dy then 1.414 * 0.5 else 0.5
  if avoid_danger then
    match lookup_cell pf to_cell with
    | some c => base_cost + c.danger_level * 10
    | none => base_cost
  else base_cost

/-- The 8-connected neighbor offsets, in the source's order
(grid_astar.py:163-166). -/
def neighborOffsets : List Pos :=
  [(0.5, 0), (-0.5, 0), (0, 0.5), (0, -0.5),
   (0.5, 0.5), (0.5, -0.5), (-0.5, 0.5), (-0.5, -0.5)]

/-- Strict order on heap entries `(f, cell)`: Python tuple comparison, as used
by `heapq` (lexicographic on `f`, then cell x, then cell y). -/
def entryLT (a b : ℚ × Pos) : Bool :=
  decide (a.1 < b.1 ∨ (a.1 = b.1 ∧ (a.2.1 < b.2.1 ∨ (a.2.1 = b.2.1 ∧ a.2.2 < b.2.2))))

/-- Remove the first occurrence of an entry from the open list. -/
def eraseEntry : List (ℚ × Pos) → (ℚ × Pos) → List (ℚ × Pos)
  | [], _ => []
  | e :: es, x => if e = x then es else e :: eraseEntry es x

/-- `heapq.heappop`: extract the least entry under Python tuple order.
Entries compare by `(f, cell)`, a total order with no duplicates-distinction,
so pop-min over a list is observationally the binary heap's behaviour. -/
def popMin (l : List (ℚ × Pos)) : Option ((ℚ × Pos) × List (ℚ × Pos)) :=
  match l with
  | [] => none
  | e :: es =>
    let m := es.foldl (fun acc x => if entryLT x acc then x else acc) e
    some (m, eraseEntry (e :: es) m)

/-- `GridPathfinder._reconstruct_path` (grid_astar.py:253-260), accumulator
form: follows `came_from` links back from the goal, producing the reversed
chain directly.  The fuel bounds the walk; in the source the loop terminates
because `came_from` links strictly decrease `g_score`, and
`reconstruct_path` below supplies fuel `came_from.length + 1`, enough for any
acyclic chain. -/
def reconstructAux : ℕ → List (Pos × Pos) → Pos → List Pos → Option (List Pos)
  | 0, _, _, _ => none
  | n + 1, came_from, current, acc =>
    match alistLookup came_from current with
    | none => some (current :: acc)
    | some prev => reconstructAux n came_from prev (current :: acc)

/-- `_reconstruct_path` entry point. -/
def reconstruct_path (came_from : List (Pos × Pos)) (current : Pos) :
    Option (List Pos) :=
  reconstructAux (came_from.length + 1) came_from current []

/-- One neighbor-expansion step of the A* inner loop
(grid_astar.py:167-183).  State is `(open set, came_from, g_score)`. -/
def expandStep (pf : Pathfinder) (goal : Pos) (avoid_danger : Bool)
    (danger_threshold : ℚ) (current : Pos) (closed : List Pos)
    (st : List (ℚ × Pos) × List (Pos × Pos) × List (Pos × ℚ)) (off : Pos) :
    List (ℚ × Pos) × List (Pos × Pos) × List (Pos × ℚ) :=
  let neighbor : Pos := (current.1 + off.1, current.2 + off.2)
  if ¬ is_valid_cell pf neighbor avoid_danger danger_threshold then st
  else if neighbor ∈ closed then st
  else
    let gCur : ℚ := (alistLookup st.2.2 current).getD 0
    let tentative : ℚ := gCur + edge_cost pf current neighbor avoid_danger
    match alistLookup st.2.2 neighbor with
    | some gN =>
      if tentative < gN then
        (st.1 ++ [(tentative + heuristic neighbor goal, neighbor)],
         (neighbor, current) :: st.2.1, (neighbor, tentative) :: st.2.2)
      else st
    | none =>
      (st.1 ++ [(tentative + heuristic neighbor goal, neighbor)],
       (neighbor, current) :: st.2.1, (neighbor, tentative) :: st.2.2)

/-- The fold expanding the 8 neighbors of the popped cell
(grid_astar.py:162-183). -/
def expandNeighbors (pf : Pathfinder) (goal : Pos) (avoid_danger : Bool)
    (danger_threshold : ℚ) (current : Pos) (closed1 : List Pos)
    (rest : List (ℚ × Pos)) (came_from : List (Pos × Pos))
    (g : List (Pos × ℚ)) :
    List (ℚ × Pos) × List (Pos × Pos) × List (Pos × ℚ) :=
  neighborOffsets.foldl
    (expandStep pf goal avoid_danger danger_threshold current closed1)
    (rest, came_from, g)

/-- The A* main loop (grid_astar.py:150-185).  The fuel only bounds the
number of pops; the source loop terminates because costs are positive and
the grid is finite, and `find_path` passes ample fuel. -/
def aStarLoop : ℕ → Pathfinder → Pos → Bool → ℚ →
    List (ℚ × Pos) → List (Pos × Pos) → List (Pos × ℚ) → List Pos →
    Option (List Pos)
  | 0, _, _, _, _, _, _, _, _ => none
  | n + 1, pf, goal, avoid_danger, danger_threshold, openList, came_from, g, closed =>
    match popMin openList with
    | none => none
    | some er =>
      if er.1.2 = goal then reconstruct_path came_from er.1.2
      else if er.1.2 ∈ closed then
        aStarLoop n pf goal avoid_danger danger_threshold er.2 came_from g closed
      else
        aStarLoop n pf goal avoid_danger danger_threshold
          (expandNeighbors pf goal avoid_danger danger_threshold er.1.2
            (er.1.2 :: closed) er.2 came_from g).1
          (expandNeighbors pf goal avoid_danger danger_threshold er.1.2
            (er.1.2 :: closed) er.2 came_from g).2.1
          (expandNeighbors pf goal avoid_danger danger_threshold er.1.2
            (er.1.2 :: closed) er.2 came_from g).2.2
          (er.1.2 :: closed)

/-- Snap a continuous coordinate to its grid cell
(`int(x / 0.5) * 0.5 + 0.25`, grid_astar.py:120-127). -/
def snapCoord (x : ℚ) : ℚ := (pyTrunc (x / 0.5) : ℚ) * 0.5 + 0.25

/-- Snapped cell of a continuous position. -/
def snapCell (x y : ℚ) : Pos := (snapCoord x, snapCoord y)

/-- `GridPathfinder._find_nearest_valid_cell` (grid_astar.py:187-202):
scan the cell dict in insertion order, skip walls, keep the strictly
closest cell under Manhattan distance. -/
def find_nearest_valid_cell (pf : Pathfinder) (x y : ℚ) : Option Pos :=
  (pf.cells.foldl
    (fun acc c =>
      if c.1 ∈ pf.wallCells then acc
      else
        let dist : ℚ := qabs (c.1.1 - x) + qabs (c.1.2 - y)
        match acc with
        | none => some (c.1, dist)
        | some b => if dist < b.2 then some (c.1, dist) else acc)
    none).map (·.1)

/-- Start/goal resolution in `find_path` (grid_astar.py:129-138): keep the
snapped cell when it exists and is not a wall, otherwise snap to the nearest
valid cell. -/
def resolveCell (pf : Pathfinder) (x y : ℚ) : Option Pos :=
  let c := snapCell x y
  if (lookup_cell pf c).isSome ∧ c ∉ pf.wallCells then some c
  else find_nearest_valid_cell pf x y

/-- Fuel passed to the A* loop: generous bound on the pops the examples in
this development need (the source loop has no bound; see `aStarLoop`). -/
def aStarFuel (pf : Pathfinder) : ℕ :=
  (pf.cells.length + 2) * (pf.cells.length + 2) * 8 + 8

/-- `GridPathfinder.find_path` (grid_astar.py:103-185). -/
def find_path (pf : Pathfinder) (start_x start_y goal_x goal_y : ℚ)
    (avoid_danger : Bool) (danger_threshold : ℚ) : Option (List Pos) :=
  match resolveCell pf start_x start_y with
  | none => none
  | some start_cell =>
    match resolveCell pf goal_x goal_y with
    | none => none
    | some goal_cell =>
      aStarLoop (aStarFuel pf) pf goal_cell avoid_danger danger_threshold
        [(0, start_cell)] [] [(start_cell, 0)] []

/-- A room as seen by the engine.  The class lives in the missing `sim/env`
module; fields are those the engine reads (`x`, `y`, `floor`, `area`,
`hazard`, `cleared`, `evacuees_remaining`, `evacuee_count`, `is_exit`,
`is_stair`) plus the spec's room-kind and discovery flags (§3). -/
structure Room where
  x : ℚ
  y : ℚ
  floor : ℤ
  area : ℚ
  hazard : ℚ
  cleared : Bool
  cleared_tick : Option ℕ
  discovered : Bool
  evacuee_count : ℕ
  evacuees_remaining : ℕ
  is_exit : Bool
  is_stair : Bool
  is_hallway : Bool
deriving DecidableEq, Repr

/-- A layout connection as read by the door-fire check
(decision_engine.py:88-105): source room id and optional door position. -/
structure Conn where
  fromRoom : String
  toRoom : String
  door_pos : Option (ℚ × ℚ)
deriving DecidableEq, Repr

/-- A room-graph edge as read by `_process_room_movement`
(simulator.py:297-326). -/
structure EdgeData where
  distance : ℚ
  is_stair : Bool
deriving DecidableEq, Repr

/-- The environment (class `Environment` of the missing `sim/env` module).
Data fields hold the layout; the function-valued fields embed its pure
queries (`get_shortest_path`, `get_nearest_exit`, `graph.has_edge` /
edge data, `get_room_at_position`), which the engine treats as read-only
services. -/
structure Env where
  rooms : List (String × Room)
  exits : List String
  connections : List Conn
  agent_starts : List (ℚ × ℚ × ℤ)
  floors : List (ℤ × List String)
  shortestPath : String → String → Option (List String)
  nearestExit : String → Option String
  graphEdge : String → String → Option EdgeData
  roomAt : ℚ → ℚ → ℤ → Option String

/-- Placeholder room for the engine's unchecked `env.rooms[id]` dict reads;
in every run the ids read are present, so the default is never observed. -/
def defaultRoom : Room :=
  { x := 0, y := 0, floor := 0, area := 0, hazard := 0, cleared := false,
    cleared_tick := none, discovered := false, evacuee_count := 0,
    evacuees_remaining := 0, is_exit := false, is_stair := false,
    is_hallway := false }

/-- `env.rooms[room_id]` (total form of the dict read). -/
def getRoom (env : Env) (room_id : String) : Room :=
  (alistLookup env.rooms room_id).getD defaultRoom

/-- Replace a room binding, keeping dict order (Python key update). -/
def setRoom : List (String × Room) → String → Room → List (String × Room)
  | [], _, _ => []
  | p :: ps, k, r => if p.1 = k then (k, r) :: ps else p :: setRoom ps k r

/-- Modelled from the spec: `Environment.get_uncleared_rooms` (missing
`sim/env` module).  §4.3: candidates are "uncleared office rooms"; §4.4:
a room with evacuees left "remains in the uncleared-priority pool (even
though `cleared=true` ...) until `evacuees_remaining == 0`".  Returns ids
in the rooms-dict order (the layout order; §5 forbids unordered
iteration). -/
def get_uncleared_rooms (env : Env) : List String :=
  (env.rooms.filter fun p =>
    ¬ p.2.is_exit ∧ ¬ p.2.is_stair ∧ ¬ p.2.is_hallway ∧
      (¬ p.2.cleared ∨ 0 < p.2.evacuees_remaining)).map Prod.fst

/-- Modelled from the spec: `Environment.get_remaining_evacuees` (missing
`sim/env` module): total `evacuees_remaining` across rooms (§3, §4.5). -/
def get_remaining_evacuees (env : Env) : ℕ :=
  (env.rooms.map fun p => p.2.evacuees_remaining).sum

/-- Modelled from the spec: `Environment.get_total_evacuees` (missing
`sim/env` module): total initial evacuee count across rooms (§3). -/
def get_total_evacuees (env : Env) : ℕ :=
  (env.rooms.map fun p => p.2.evacuee_count).sum

/-- Modelled from the spec: `HazardSystem.get_max_hazard` (missing `sim/env`
module): the maximum cell danger (§4.6 "max cell danger observed"). -/
def get_max_hazard (cells : List (Pos × GridCell)) : ℚ :=
  cells.foldl (fun acc c => qmax acc c.2.danger_level) 0

/-- The door-fire check inside `calculate_priority_index`
(decision_engine.py:84-105): find the first connection leaving `room_id`
that has a door position, probe the 15 cells at offsets
`dx ∈ {-1,-0.5,0,0.5,1}`, `dy ∈ {-0.5,0,0.5}` scaled by a further 0.5,
and report blockage when any probed cell is burning or has danger above
0.85. -/
def door_blocked (env : Env) (cells : List (Pos × GridCell))
    (room_id : String) : Bool :=
  match (env.connections.find? fun c =>
      c.fromRoom = room_id ∧ c.door_pos.isSome).bind (·.door_pos) with
  | none => false
  | some dp =>
    ([(-1 : ℚ), -0.5, 0, 0.5, 1].any fun dx =>
      [(-0.5 : ℚ), 0, 0.5].any fun dy =>
        let door_x := dp.1 + dx * 0.5
        let door_y := dp.2 + dy * 0.5
        let key : Pos := ((pyRound (door_x / 0.5) : ℚ) * 0.5 + 0.25,
                          (pyRound (door_y / 0.5) : ℚ) * 0.5 + 0.25)
        match alistLookup cells key with
        | some c => c.is_burning ∨ 0.85 < c.danger_level
        | none => false)

/-- `DecisionEngine.calculate_priority_index` (decision_engine.py:55-132).
Returns 0 when the room has no remaining evacuees, when no room-graph path
exists from the caller, or when the door-fire check trips; otherwise
`E · (10 + 10·D) / (max(d, 5) / 10)` with `d` the Manhattan distance
between room centers (0 when the caller id is not a room). -/
def calculate_priority_index (env : Env) (cells : List (Pos × GridCell))
    (room_id agent_position : String) : ℚ :=
  let room := getRoom env room_id
  let E_i : ℚ := room.evacuees_remaining
  if E_i = 0 then 0
  else if (env.shortestPath agent_position room_id).isNone then 0
  else if door_blocked env cells room_id then 0
  else
    let D_i : ℚ := room.hazard
    let distance : ℚ :=
      match alistLookup env.rooms agent_position with
      | some agent_room => qabs (room.x - agent_room.x) + qabs (room.y - agent_room.y)
      | none => 0
    let distance := qmax distance 5
    let lambda_val : ℚ := 10
    let numerator := E_i * (10 + lambda_val * D_i)
    let denominator := distance / 10
    1 * numerator / denominator

/-- The spec's priority formula, written from its words (§4.3):
`P_i = A_i · E_i · (β + λ · D_i) / max(d_pi, d_min)` with defaults
`β = 10`, `λ = 10`, `d_min = 5`, `A_i` the room-graph accessibility bit,
`E_i` the remaining evacuees, `D_i` the room danger and `d_pi` the
Manhattan distance from the caller to the room center.  Used only to
compare the code's formula against the spec's. -/
def specPriorityIndex (env : Env) (room_id agent_position : String) : ℚ :=
  let room := getRoom env room_id
  let A_i : ℚ := if (env.shortestPath agent_position room_id).isSome then 1 else 0
  let E_i : ℚ := room.evacuees_remaining
  let D_i : ℚ := room.hazard
  let d_pi : ℚ :=
    match alistLookup env.rooms agent_position with
    | some agent_room => qabs (room.x - agent_room.x) + qabs (room.y - agent_room.y)
    | none => 0
  A_i * E_i * (10 + 10 * D_i) / qmax d_pi 5

/-- The spec's A* heuristic, written from its words (§4.2):
"Chebyshev distance × cell size" — the Chebyshev distance between the two
cells, in cells, times 0.5 m.  Used only to compare the code's heuristic
against the spec's. -/
def specChebyshevHeuristic (c1 c2 : Pos) : ℚ :=
  qmax (qabs (c1.1 - c2.1) / 0.5) (qabs (c1.2 - c2.2) / 0.5) * 0.5

/-- `DecisionEngine.estimate_service_time` (decision_engine.py:202-225). -/
def estimate_service_time (env : Env) (service_time_base : ℚ)
    (room_id : String) : ℚ :=
  let room := getRoom env room_id
  let area_factor : ℚ := 1 + room.area / 100 * 0.5
  let hazard_factor : ℚ := 1 + room.hazard * 0.5
  service_time_base * area_factor * hazard_factor

/-- `DecisionEngine.get_path_to_exit` (decision_engine.py:346-361). -/
def get_path_to_exit (env : Env) (from_room_id : String) :
    Option String × Option (List String) :=
  match env.nearestExit from_room_id with
  | none => (none, none)
  | some e => (some e, env.shortestPath from_room_id e)

/-- `AgentState` (agent.py:8-15), embedded exactly: the enum has members
IDLE, MOVING, SEARCHING, RESCUING, DRAGGING, QUEUED and — notably — no
ESCAPING, DEAD or SAFE member. -/
inductive AgentState where
  | idle
  | moving
  | searching
  | rescuing
  | dragging
  | queued
deriving DecidableEq, Repr

/-- `EventType` (simulator.py:15-25), embedded exactly: nine members, with
no AGENT_DIED member (deaths are logged as SIMULATION_END events with
reason `agent_death`, simulator.py:149-150). -/
inductive EventType where
  | agent_move
  | agent_arrive
  | room_search_start
  | room_cleared
  | evacuee_found
  | evacuee_rescued
  | agent_queued
  | latency_spike
  | simulation_end
deriving DecidableEq, Repr

/-- The `data` dict attached to events: the union of the keys the engine
writes, each optional (absent key = `none`). -/
structure EventData where
  reason : Option String := none
  danger : Option ℚ := none
  burning : Option Bool := none
  target : Option String := none
  priority : Option ℚ := none
  score : Option ℚ := none
  action : Option String := none
  source_room : Option (Option String) := none
  count : Option ℕ := none
  evacuees_found : Option ℕ := none
  service_time : Option ℚ := none
  time : Option ℚ := none
deriving DecidableEq, Repr

/-- `SimulationEvent` (simulator.py:28-40). -/
structure SimulationEvent where
  tick : ℕ
  time : ℚ
  event_type : EventType
  agent_id : Option ℕ
  room_id : Option String
  data : EventData
deriving DecidableEq, Repr

/-- The Python exceptions the engine can raise per tick.  `attributeError`
models `AttributeError` — raised when `simulator.py` touches
`AgentState.ESCAPING` (not a member of the enum, agent.py:8-15) or reads
`agent.escaped` before any assignment (no such field in `Agent.__init__`,
agent.py:21-81). -/
inductive PyError where
  | attributeError
deriving DecidableEq, Repr

/-- `Agent` (agent.py:21-81): exactly the fields `__init__` defines, minus
visualization/latency bookkeeping the engine never branches on
(`position_history`, `max_history_length`, `last_comm_tick`,
`knowledge_timestamp`).  `escaped` is NOT initialized by the source;
the `Option Bool` field models the Python dynamic attribute — `none` means
unset, so that reading it raises `AttributeError` (simulator.py:120). -/
structure Agent where
  id : ℕ
  x : ℚ
  y : ℚ
  floor : ℤ
  current_room : String
  speed_hall : ℚ := 1.5
  speed_stairs : ℚ := 0.8
  speed_drag : ℚ := 0.6
  service_time_base : ℚ := 5
  state : AgentState := AgentState.idle
  target_room : Option String := none
  path : List String := []
  path_index : ℕ := 0
  target_x : Option ℚ := none
  target_y : Option ℚ := none
  moving_to_room : Bool := false
  waypoints : List Pos := []
  current_waypoint : ℕ := 0
  time_remaining_action : ℚ := 0
  time_in_current_state : ℚ := 0
  carrying_evacuee : Bool := false
  evacuee_source_room : Option String := none
  total_distance_traveled : ℚ := 0
  rooms_cleared : ℕ := 0
  evacuees_rescued : ℕ := 0
  cumulative_hazard_exposure : ℚ := 0
  is_dead : Bool := false
  escaped : Option Bool := none
deriving DecidableEq, Repr

/-- `Agent.clear_target` (agent.py:98-103). -/
def clear_target (a : Agent) : Agent :=
  { a with target_room := none, path := [], path_index := 0,
           state := AgentState.idle }

/-- `Agent.start_searching` (agent.py:158-162). -/
def start_searching (a : Agent) (service_time : ℚ) : Agent :=
  { a with state := AgentState.searching,
           time_remaining_action := service_time,
           time_in_current_state := 0 }

/-- `Agent.start_rescuing` (agent.py:164-176).  Note: sets
`carrying_evacuee` but not `evacuee_source_room`. -/
def start_rescuing (a : Agent) (exit_room : String) (path : List String) :
    Agent :=
  { a with state := AgentState.dragging, carrying_evacuee := true,
           target_room := some exit_room, path := path, path_index := 0 }

/-- `Agent.complete_search` (agent.py:186-189). -/
def complete_search (a : Agent) : Agent :=
  { a with rooms_cleared := a.rooms_cleared + 1, state := AgentState.idle }

/-- `Agent.accumulate_hazard_exposure` (agent.py:213-215). -/
def accumulate_hazard_exposure (a : Agent) (hazard dt : ℚ) : Agent :=
  { a with cumulative_hazard_exposure :=
      a.cumulative_hazard_exposure + hazard * dt }

/-- The cell key of the agent's position used by the safety check
(`int(p / 0.5) * 0.5 + 0.25`, simulator.py:138-140). -/
def agentCell (a : Agent) : Pos := (snapCoord a.x, snapCoord a.y)

/-- Whether the cell under the agent is lethal: present in the cell dict
and burning or with danger above 0.95 (simulator.py:142-145). -/
def lethalCellAt (cells : List (Pos × GridCell)) (a : Agent) : Bool :=
  match alistLookup cells (agentCell a) with
  | some c => 0.95 < c.danger_level ∨ c.is_burning
  | none => false

/-- The mutation the safety check applies to a dying agent
(simulator.py:146-147): `is_dead = True` and state reset to IDLE. -/
def killAgent (a : Agent) : Agent :=
  { a with is_dead := true, state := AgentState.idle }

/-- The event the safety check logs for a death (simulator.py:149-150):
a SIMULATION_END event with reason `agent_death`. -/
def deathEvent (tick : ℕ) (time : ℚ) (cells : List (Pos × GridCell))
    (a : Agent) : SimulationEvent :=
  let c := (alistLookup cells (agentCell a)).getD
    { danger_level := 0, is_burning := false }
  { tick := tick, time := time, event_type := EventType.simulation_end,
    agent_id := some a.id, room_id := some a.current_room,
    data := { reason := some "agent_death", danger := some c.danger_level,
              burning := some c.is_burning } }

/-- `Simulator._check_agent_safety` (simulator.py:130-150): every live
agent standing on a lethal cell is marked dead, its state reset to IDLE,
and one SIMULATION_END/agent_death event is appended, in agent order. -/
def check_agent_safety (cells : List (Pos × GridCell)) (tick : ℕ)
    (time : ℚ) (agents : List Agent) : List Agent × List SimulationEvent :=
  (agents.map fun a =>
      if ¬ a.is_dead ∧ lethalCellAt cells a then killAgent a else a,
   agents.filterMap fun a =>
      if ¬ a.is_dead ∧ lethalCellAt cells a
      then some (deathEvent tick time cells a) else none)

/-- The grid path committed for a candidate room during target selection
(simulator.py:194-198): pathfinder call with `avoid_danger=True`,
`danger_threshold=0.8`, accepted only when a path with more than one
waypoint is returned. -/
def candidate_grid_path (env : Env) (pf : Pathfinder) (agent : Agent)
    (room_id : String) : Option (List Pos) :=
  match find_path pf agent.x agent.y (getRoom env room_id).x
      (getRoom env room_id).y true 0.8 with
  | none => none
  | some p => if 1 < p.length then some p else none

/-- One iteration of the room-selection loop of
`Simulator._assign_agent_target` (simulator.py:189-201): attempt the grid
path only when the room's priority strictly exceeds the best so far, and
commit room, priority and path together. -/
def select_step (env : Env) (pf : Pathfinder) (cells : List (Pos × GridCell))
    (agent : Agent) (best : Option String × ℚ × Option (List Pos))
    (room_id : String) : Option String × ℚ × Option (List Pos) :=
  let priority := calculate_priority_index env cells room_id agent.current_room
  if best.2.1 < priority then
    match candidate_grid_path env pf agent room_id with
    | some p => (some room_id, priority, some p)
    | none => best
  else best

/-- The selection fold over the uncleared rooms, starting from
`(best_room, best_priority, best_path) = (None, -1, None)`
(simulator.py:185-201). -/
def select_best_room (env : Env) (pf : Pathfinder)
    (cells : List (Pos × GridCell)) (agent : Agent) :
    Option String × ℚ × Option (List Pos) :=
  (get_uncleared_rooms env).foldl (select_step env pf cells agent)
    (none, -1, none)

/-- `Simulator._assign_escape_route` (simulator.py:221-250): scan the exits,
keep the strictly shortest grid path (`avoid_danger=True`, threshold 0.85,
length > 1); when one is found the source then executes
`agent.state = AgentState.ESCAPING` — an `AttributeError`, since the
`AgentState` enum has no such member (agent.py:8-15).  The error is
modelled as `Except.error`; with no reachable exit the agent is returned
unchanged. -/
def assign_escape_route (env : Env) (pf : Pathfinder) (agent : Agent) :
    Except PyError Agent :=
  let best := env.exits.foldl
    (fun (acc : Option (String × List Pos × ℕ)) exit_id =>
      let exit_room := getRoom env exit_id
      match find_path pf agent.x agent.y exit_room.x exit_room.y true 0.85 with
      | none => acc
      | some p =>
        if 1 < p.length then
          match acc with
          | none => some (exit_id, p, p.length)
          | some b => if p.length < b.2.2 then some (exit_id, p, p.length) else acc
        else acc)
    none
  match best with
  | some _ => Except.error PyError.attributeError
  | none => Except.ok agent

/-- Python truthiness of the `if best_room and best_path:` guard
(simulator.py:203): a string is truthy when non-empty, a list when
non-empty. -/
def truthyRoomAndPath (room : Option String) (path : Option (List Pos)) : Bool :=
  (match room with | some s => decide (s ≠ "") | none => false) &&
  (match path with | some p => decide (p ≠ []) | none => false)

/-- `Simulator._assign_agent_target` (simulator.py:179-219), grid branch
(the pathfinder exists throughout this embedding): commit the selected
room as a MOVING target with an AGENT_MOVE event, or fall back to the
escape route. -/
def assign_agent_target (env : Env) (pf : Pathfinder)
    (cells : List (Pos × GridCell)) (tick : ℕ) (time : ℚ) (agent : Agent) :
    Except PyError (Agent × List SimulationEvent) :=
  let best := select_best_room env pf cells agent
  if truthyRoomAndPath best.1 best.2.2 then
    let room_id := best.1.getD ""
    let path := best.2.2.getD []
    let agent1 :=
      { agent with target_room := some room_id, waypoints := path,
                   current_waypoint := 0, state := AgentState.moving }
    Except.ok (agent1,
      [{ tick := tick, time := time, event_type := EventType.agent_move,
         agent_id := some agent.id, room_id := some agent.current_room,
         data := { target := some room_id, priority := some best.2.1 } }])
  else
    (assign_escape_route env pf agent).map fun a => (a, [])

/-- `Agent.move_towards` (agent.py:122-156).  `sq` is the (deterministic)
square-root function of the host floating point, threaded explicitly. -/
def move_towards (sq : ℚ → ℚ) (a : Agent) (tx ty speed dt : ℚ) :
    Agent × Bool :=
  let dx := tx - a.x
  let dy := ty - a.y
  let distance := sq (dx * dx + dy * dy)
  if distance < 0.1 then ({ a with x := tx, y := ty }, true)
  else
    let move_dist := min (speed * dt) distance
    let a1 := if 0 < distance then
        { a with x := a.x + dx / distance * move_dist,
                 y := a.y + dy / distance * move_dist }
      else a
    ({ a1 with total_distance_traveled :=
        a1.total_distance_traveled + move_dist }, false)

/-- `Agent.update_position` (agent.py:105-120). -/
def update_position (sq : ℚ → ℚ) (a : Agent) (x y : ℚ) (floor : ℤ)
    (room : String) : Agent :=
  let dx := x - a.x
  let dy := y - a.y
  { a with
    total_distance_traveled := a.total_distance_traveled + sq (dx * dx + dy * dy),
    x := x, y := y, floor := floor, current_room := room }

/-- `Agent.advance_path` (agent.py:191-202), state part. -/
def advance_path (a : Agent) : Agent :=
  if a.path_index < a.path.length then { a with path_index := a.path_index + 1 }
  else a

/-- `AgentManager` stair bookkeeping (agent_manager.py:24-25). -/
structure Manager where
  stair_queues : List (String × List ℕ) := []
  stair_occupancy : List (String × Option ℕ) := []
deriving DecidableEq, Repr

/-- Replace or append a binding in a string-keyed association list
(Python dict write). -/
def setKey {β : Type} : List (String × β) → String → β → List (String × β)
  | [], k, v => [(k, v)]
  | p :: ps, k, v => if p.1 = k then (k, v) :: ps else p :: setKey ps k v

/-- `AgentManager.is_stair_available` (agent_manager.py:75-81); the
`setdefault`-style write is part of its behaviour, so the manager is
returned too. -/
def is_stair_available (m : Manager) (stair_id : String) (agent_id : ℕ) :
    Bool × Manager :=
  match alistLookup m.stair_occupancy stair_id with
  | none => (true, { m with stair_occupancy := setKey m.stair_occupancy stair_id none })
  | some occ => (occ.isNone ∨ occ = some agent_id, m)

/-- `AgentManager.occupy_stair` (agent_manager.py:83-85). -/
def occupy_stair (m : Manager) (stair_id : String) (agent_id : ℕ) : Manager :=
  { m with stair_occupancy := setKey m.stair_occupancy stair_id (some agent_id) }

/-- `AgentManager.enqueue_for_stair` (agent_manager.py:99-109): append the
agent to the stair's queue (if absent) and set its state to QUEUED. -/
def enqueue_for_stair (m : Manager) (agents : List Agent)
    (stair_id : String) (agent_id : ℕ) : Manager × List Agent :=
  let q := (alistLookup m.stair_queues stair_id).getD []
  let q1 := if agent_id ∈ q then q else q ++ [agent_id]
  let m1 := { m with stair_queues := setKey m.stair_queues stair_id q1 }
  (m1, agents.map fun a =>
    if a.id = agent_id then { a with state := AgentState.queued } else a)

/-- `AgentManager.release_stair` (agent_manager.py:87-97): clear the
occupancy, then pop the queue head; if that agent is QUEUED it becomes
MOVING and occupies the stair. -/
def release_stair (m : Manager) (agents : List Agent) (stair_id : String) :
    Manager × List Agent :=
  let m1 := { m with stair_occupancy := setKey m.stair_occupancy stair_id none }
  match (alistLookup m1.stair_queues stair_id).getD [] with
  | [] => (m1, agents)
  | next_id :: rest =>
    let m2 := { m1 with stair_queues := setKey m1.stair_queues stair_id rest }
    match agents.find? fun a => a.id = next_id with
    | some a =>
      if a.state = AgentState.queued then
        (occupy_stair m2 stair_id next_id,
         agents.map fun b =>
           if b.id = next_id then { b with state := AgentState.moving } else b)
      else (m2, agents)
    | none => (m2, agents)

/-- `Simulator._handle_arrival` (simulator.py:348-392): the AGENT_ARRIVE
event is logged (line 352), after which line 355 evaluates
`AgentState.ESCAPING` — an `AttributeError` (the enum has no such member,
agent.py:8-15), so every arrival raises.  Because the exception propagates
out of `run()`, the events already appended are not returned to the
caller; the embedding reports only the error. -/
def handle_arrival (_agent : Agent) : Except PyError (Agent × List SimulationEvent) :=
  Except.error PyError.attributeError

/-- `Simulator._process_grid_movement` (simulator.py:263-283). -/
def process_grid_movement (env : Env) (sq : ℚ → ℚ) (dt : ℚ) (agent : Agent) :
    Except PyError (Agent × List SimulationEvent) :=
  if agent.waypoints.length ≤ agent.current_waypoint then handle_arrival agent
  else
    let target := agent.waypoints.getD agent.current_waypoint (0, 0)
    let speed := if agent.carrying_evacuee then agent.speed_drag else agent.speed_hall
    let mr := move_towards sq agent target.1 target.2 speed dt
    if mr.2 then
      let a1 := { mr.1 with current_waypoint := mr.1.current_waypoint + 1 }
      let a2 :=
        match env.roomAt a1.x a1.y a1.floor with
        | some r => { a1 with current_room := r }
        | none => a1
      Except.ok (a2, [])
    else Except.ok (mr.1, [])

/-- `Simulator._process_room_movement` (simulator.py:285-346), the
room-graph fallback (reachable when an agent has a room path but no grid
waypoints). -/
def process_room_movement (env : Env) (m : Manager) (sq : ℚ → ℚ)
    (dt : ℚ) (tick : ℕ) (time : ℚ) (agents : List Agent) (agent : Agent) :
    Except PyError (Agent × Manager × List Agent × List SimulationEvent) :=
  if agent.path = [] ∨ agent.path.length ≤ agent.path_index then
    (handle_arrival agent).map fun r => (r.1, m, agents, r.2)
  else
    let next_room_id := agent.path.getD agent.path_index ""
    let current_room_id := agent.current_room
    let edge := env.graphEdge current_room_id next_room_id
    let is_stair := (edge.map (·.is_stair)).getD false
    let stair_id :=
      if (getRoom env current_room_id).is_stair then current_room_id else next_room_id
    let avail := if edge.isSome ∧ is_stair then is_stair_available m stair_id agent.id
                 else (true, m)
    if edge.isSome ∧ is_stair ∧ ¬ avail.1 then
      let em := enqueue_for_stair avail.2 agents stair_id agent.id
      let agent1 := { agent with state := AgentState.queued }
      Except.ok (agent1, em.1, em.2,
        [{ tick := tick, time := time, event_type := EventType.agent_queued,
           agent_id := some agent.id, room_id := some stair_id, data := {} }])
    else
      let m1 := if edge.isSome ∧ is_stair then occupy_stair avail.2 stair_id agent.id
                else avail.2
      let next_room := getRoom env next_room_id
      let agent1 :=
        if ¬ agent.moving_to_room then
          { agent with target_x := some next_room.x, target_y := some next_room.y,
                       moving_to_room := true }
        else agent
      let speed0 := if agent1.carrying_evacuee then agent1.speed_drag else agent1.speed_hall
      let speed := if edge.isSome ∧ is_stair then agent1.speed_stairs else speed0
      let mr := move_towards sq agent1 (agent1.target_x.getD 0) (agent1.target_y.getD 0) speed dt
      if mr.2 then
        let a2 := update_position sq mr.1 next_room.x next_room.y next_room.floor next_room_id
        let a2b := advance_path a2
        let a3 : Agent := { a2b with moving_to_room := false }
        let rel := if (getRoom env current_room_id).is_stair
                   then release_stair m1 agents current_room_id else (m1, agents)
        let moveEvent : SimulationEvent :=
          { tick := tick, time := time, event_type := EventType.agent_move,
            agent_id := some agent.id, room_id := some next_room_id, data := {} }
        if a3.path.length ≤ a3.path_index then
          (handle_arrival a3).map fun r => (r.1, rel.1, rel.2, moveEvent :: r.2)
        else Except.ok (a3, rel.1, rel.2, [moveEvent])
      else Except.ok (mr.1, m1, agents, ([] : List SimulationEvent))

/-- `Simulator._process_movement` (simulator.py:252-261); the grid
pathfinder exists throughout this embedding, so the dispatch is on
waypoints, then the room path, then arrival. -/
def process_movement (env : Env) (m : Manager) (sq : ℚ → ℚ) (dt : ℚ)
    (tick : ℕ) (time : ℚ) (agents : List Agent) (agent : Agent) :
    Except PyError (Agent × Manager × List Agent × List SimulationEvent) :=
  if agent.waypoints ≠ [] then
    (process_grid_movement env sq dt agent).map fun r => (r.1, m, agents, r.2)
  else if agent.path ≠ [] ∧ agent.path_index < agent.path.length then
    process_room_movement env m sq dt tick time agents agent
  else
    (handle_arrival agent).map fun r => (r.1, m, agents, r.2)

/-- Modelled from the spec: `Room.mark_cleared` (missing `sim/env` module);
§3: `cleared` monotone once true, with the clearing tick recorded. -/
def mark_cleared (r : Room) (tick : ℕ) : Room :=
  { r with cleared := true, cleared_tick := some tick }

/-- Modelled from the spec: `Room.discover_evacuees` (missing `sim/env`
module); the search reveals the room's occupants (§3 `discovered`), and the
count found is logged as `evacuees_found` (simulator.py:406-409). -/
def discover_evacuees (r : Room) : Room × ℕ :=
  ({ r with discovered := true }, r.evacuees_remaining)

/-- Modelled from the spec: `Room.rescue_evacuee` (missing `sim/env`
module); §4.4: on pickup, decrement `evacuees_remaining` by one
immediately. -/
def rescue_evacuee (r : Room) : Room :=
  { r with evacuees_remaining := r.evacuees_remaining - 1 }

/-- The nearest-exit scan of `_process_searching` (simulator.py:426-433):
strictly closest exit by Manhattan distance from the agent, first wins. -/
def nearest_exit_by_manhattan (env : Env) (agent : Agent) : Option String :=
  (env.exits.foldl
    (fun (acc : Option (String × ℚ)) exit_id =>
      let exit_room := getRoom env exit_id
      let dist := qabs (exit_room.x - agent.x) + qabs (exit_room.y - agent.y)
      match acc with
      | none => some (exit_id, dist)
      | some b => if dist < b.2 then some (exit_id, dist) else acc)
    none).map (·.1)

/-- The exit planning after a pickup (simulator.py:423-445): find the
Manhattan-nearest exit and a grid path to it (`avoid_danger=True`,
threshold 0.8); only when a non-empty path is returned does the agent
enter DRAGGING with that path committed — otherwise it is returned
unchanged (still carrying, in whatever state `complete_search` left). -/
def plan_drag_to_exit (env : Env) (pf : Pathfinder) (agent3 : Agent) : Agent :=
  match nearest_exit_by_manhattan env agent3 with
  | none => agent3
  | some exit_id =>
    match find_path pf agent3.x agent3.y (getRoom env exit_id).x
        (getRoom env exit_id).y true 0.8 with
    | none => agent3
    | some p =>
      if p ≠ [] then
        { agent3 with
          target_room := some exit_id, waypoints := p,
          current_waypoint := 0, state := AgentState.dragging }
      else agent3

/-- `Simulator._process_searching` (simulator.py:394-450), grid branch:
count down the service time; on completion mark the room cleared, discover
its evacuees, and — when any remain — pick one up (`carrying_evacuee`,
`evacuee_source_room`) and plan a grid path (`avoid_danger=True`,
threshold 0.8) to the Manhattan-nearest exit; only if a non-empty path is
returned does the agent enter DRAGGING (otherwise it stays as
`complete_search` left it: IDLE, while carrying). -/
def process_searching (env : Env) (pf : Pathfinder)
    (dt : ℚ) (tick : ℕ) (time : ℚ) (agent : Agent) :
    Agent × Env × List SimulationEvent :=
  let agent1 := { agent with
    time_remaining_action := agent.time_remaining_action - dt,
    time_in_current_state := agent.time_in_current_state + dt }
  if agent1.time_remaining_action ≤ 0 then
    let room := getRoom env agent1.current_room
    let room1 := mark_cleared room tick
    let agent2 := complete_search agent1
    let dr := discover_evacuees room1
    let room2 := dr.1
    let evac_count := dr.2
    let clearedEvent : SimulationEvent :=
      { tick := tick, time := time, event_type := EventType.room_cleared,
        agent_id := some agent2.id, room_id := some agent2.current_room,
        data := { evacuees_found := some evac_count } }
    let foundEvents : List SimulationEvent :=
      if 0 < evac_count then
        [{ tick := tick, time := time, event_type := EventType.evacuee_found,
           agent_id := some agent2.id, room_id := some agent2.current_room,
           data := { count := some evac_count } }]
      else []
    if 0 < room2.evacuees_remaining then
      let room3 := rescue_evacuee room2
      let agent3 := { agent2 with
        carrying_evacuee := true,
        evacuee_source_room := some agent2.current_room }
      let agent4 := plan_drag_to_exit env pf agent3
      (agent4, { env with rooms := setRoom env.rooms agent2.current_room room3 },
       clearedEvent :: foundEvents)
    else
      (agent2, { env with rooms := setRoom env.rooms agent2.current_room room2 },
       clearedEvent :: foundEvents)
  else (agent1, env, [])

/-- `AgentManager` construction parameters (`params['agents']`), with the
source's defaults (agent.py:40-43, agent_manager.py:31). -/
structure AgentParams where
  count : ℕ := 2
  speed_hall : ℚ := 1.5
  speed_stairs : ℚ := 0.8
  speed_drag : ℚ := 0.6
  service_time_base : ℚ := 5
deriving DecidableEq, Repr

/-- `AgentManager._initialize_agents` (agent_manager.py:29-59): spawn
`count` agents cycling through the configured starts (falling back to the
first exit, then to origin), resolving each start to a room (falling back
to the floor's first room, then the first room overall). -/
def initialize_agents (env : Env) (ap : AgentParams) : List Agent :=
  let starts :=
    if env.agent_starts = [] ∧ env.exits ≠ [] then
      let exit_room := getRoom env (env.exits.getD 0 "")
      [(exit_room.x, exit_room.y, exit_room.floor)]
    else env.agent_starts
  (List.range ap.count).map fun i =>
    let s := if starts ≠ [] then starts.getD (i % starts.length) (0, 0, 0)
             else (0, 0, 0)
    let resolved :=
      match env.roomAt s.1 s.2.1 s.2.2 with
      | some r => (s.1, s.2.1, r)
      | none =>
        let floor_rooms := (alistLookup env.floors s.2.2).getD []
        let current_room :=
          if floor_rooms ≠ [] then floor_rooms.getD 0 ""
          else ((env.rooms.map Prod.fst).getD 0 "")
        let room := getRoom env current_room
        (room.x, room.y, current_room)
    { id := i, x := resolved.1, y := resolved.2.1, floor := s.2.2,
      current_room := resolved.2.2,
      speed_hall := ap.speed_hall, speed_stairs := ap.speed_stairs,
      speed_drag := ap.speed_drag, service_time_base := ap.service_time_base }

/-- Hazard parameters (spec §4.1 and §6): `ignite_prob` stands for the
per-attempt ignition probability `1 − exp(−α_spread·dt)`. -/
structure HazardParams where
  enabled : Bool := true
  ignite_prob : ℚ := 0
  danger_radius : ℚ := 3
  max_danger : ℚ := 1
deriving DecidableEq, Repr

/-- The linear-congruential generator standing for the seeded
`np.random` stream (simulator.py:81-82 seeds it once at construction). -/
def lcgNext (r : ℕ) : ℕ := (r * 1103515245 + 12345) % 2147483648

/-- A draw in `[0, 1)` from the generator state. -/
def lcgUnit (r : ℕ) : ℚ := (r : ℚ) / 2147483648

/-- Chebyshev distance between cell centers (spec §4.1 danger kernel). -/
def chebyshevDist (a b : Pos) : ℚ := qmax (qabs (a.1 - b.1)) (qabs (a.2 - b.2))

/-- Modelled from the spec: the ignition phase of
`Environment.update_hazards` (missing `sim/env` module); §4.1 `tick(dt)`:
each currently burning cell attempts to ignite each of its 8 neighbors
with the spread probability, conditioned on the neighbor existing, not
being a wall and not already burning.  The RNG stream is consumed one
draw per attempt, in cell-dict order then offset order. -/
def hazardIgnitionPhase (hp : HazardParams) (cells : List (Pos × GridCell))
    (rng : ℕ) : List Pos × ℕ :=
  cells.foldl
    (fun acc c =>
      if c.2.is_burning then
        neighborOffsets.foldl
          (fun acc2 off =>
            let npos : Pos := (c.1.1 + off.1, c.1.2 + off.2)
            match alistLookup cells npos with
            | some nc =>
              if nc.is_wall ∨ nc.is_burning then acc2
              else
                let r1 := lcgNext acc2.2
                if lcgUnit r1 < hp.ignite_prob then (acc2.1 ++ [npos], r1)
                else (acc2.1, r1)
            | none => acc2)
          acc
      else acc)
    ([], rng)

/-- Modelled from the spec: the danger recomputation of
`Environment.update_hazards` (missing `sim/env` module); §4.1: danger of a
non-wall cell is the maximum over burning cells within Chebyshev distance
`danger_radius` of `max_danger · (1 − d/danger_radius)`; walls keep
danger 0 (the spec's default choice). -/
def hazardDangerPhase (hp : HazardParams) (cells : List (Pos × GridCell)) :
    List (Pos × GridCell) :=
  cells.map fun c =>
    if c.2.is_wall then (c.1, { c.2 with danger_level := 0 })
    else
      let d := cells.foldl
        (fun acc b =>
          if b.2.is_burning then
            let dist := chebyshevDist c.1 b.1
            if dist ≤ hp.danger_radius then
              qmax acc (qmax 0 (hp.max_danger * (1 - dist / hp.danger_radius)))
            else acc
          else acc)
        0
      (c.1, { c.2 with danger_level := d })

/-- Modelled from the spec: `Environment.update_hazards` (missing
`sim/env` module); §4.1 and §3: ignition, then danger recomputation, then
each room's `hazard` becomes the mean danger of its cells (rooms with no
cells keep their value). -/
def update_hazards (hp : HazardParams) (cells : List (Pos × GridCell))
    (rooms : List (String × Room)) (rng : ℕ) :
    List (Pos × GridCell) × List (String × Room) × ℕ :=
  if ¬ hp.enabled then (cells, rooms, rng)
  else
    let ig := hazardIgnitionPhase hp cells rng
    let cells1 := cells.map fun c =>
      if c.1 ∈ ig.1 ∧ ¬ c.2.is_wall then (c.1, { c.2 with is_burning := true })
      else c
    let cells2 := hazardDangerPhase hp cells1
    let rooms1 := rooms.map fun p =>
      let own := cells2.filter fun c => c.2.room_id = some p.1
      if own = [] then p
      else
        (p.1, { p.2 with hazard :=
          (own.map fun c => c.2.danger_level).sum / own.length })
    (cells2, rooms1, ig.2)

/-- `Simulator._process_agent` (simulator.py:152-177): dispatch on the
agent's state (IDLE, MOVING, SEARCHING, DRAGGING, QUEUED; RESCUING has no
branch), then accumulate hazard exposure from the agent's current room. -/
def process_agent (env : Env) (cells : List (Pos × GridCell))
    (walls : List Pos) (m : Manager) (sq : ℚ → ℚ) (dt : ℚ) (tick : ℕ)
    (time : ℚ) (agents : List Agent) (agent : Agent) :
    Except PyError (Agent × Env × Manager × List Agent × List SimulationEvent) :=
  let pf : Pathfinder := { cells := cells, wallCells := walls }
  let dispatched :
      Except PyError (Agent × Env × Manager × List Agent × List SimulationEvent) :=
    match agent.state with
    | AgentState.idle =>
      (assign_agent_target env pf cells tick time agent).map
        fun r => (r.1, env, m, agents, r.2)
    | AgentState.moving =>
      (process_movement env m sq dt tick time agents agent).map
        fun r => (r.1, env, r.2.1, r.2.2.1, r.2.2.2)
    | AgentState.searching =>
      let r := process_searching env pf dt tick time agent
      Except.ok (r.1, r.2.1, m, agents, r.2.2)
    | AgentState.dragging =>
      (process_movement env m sq dt tick time agents agent).map
        fun r => (r.1, env, r.2.1, r.2.2.1, r.2.2.2)
    | AgentState.queued => Except.ok (agent, env, m, agents, [])
    | AgentState.rescuing => Except.ok (agent, env, m, agents, [])
  dispatched.map fun r =>
    let room := getRoom r.2.1 r.1.current_room
    (accumulate_hazard_exposure r.1 room.hazard dt, r.2.1, r.2.2.1, r.2.2.2.1, r.2.2.2.2)

/-- World threaded through the per-agent phase of a tick. -/
structure MidState where
  env : Env
  mgr : Manager
  agents : List Agent
  events : List SimulationEvent

/-- The agent loop of `Simulator.step` (simulator.py:119-121): process the
agents in list order; a dead agent is skipped, otherwise `agent.escaped`
is read — which raises `AttributeError` whenever the attribute was never
assigned (`Agent.__init__` does not set it; only the unreachable arrival
handler would). -/
def stepAgents (cells : List (Pos × GridCell)) (walls : List Pos)
    (sq : ℚ → ℚ) (dt : ℚ) (tick : ℕ) (time : ℚ) :
    List ℕ → MidState → Except PyError MidState
  | [], w => Except.ok w
  | i :: rest, w =>
    let a := w.agents.getD i { id := 0, x := 0, y := 0, floor := 0, current_room := "" }
    if a.is_dead then stepAgents cells walls sq dt tick time rest w
    else
      match a.escaped with
      | none => Except.error PyError.attributeError
      | some esc =>
        if esc then stepAgents cells walls sq dt tick time rest w
        else
          match process_agent w.env cells walls w.mgr sq dt tick time w.agents a with
          | Except.error e => Except.error e
          | Except.ok r =>
            stepAgents cells walls sq dt tick time rest
              { env := r.2.1, mgr := r.2.2.1,
                agents := r.2.2.2.1.set i r.1,
                events := w.events ++ r.2.2.2.2 }

/-- Full simulation state (`Simulator.__init__`, simulator.py:54-87). -/
structure SimState where
  env : Env
  cells : List (Pos × GridCell)
  walls : List Pos
  mgr : Manager
  agents : List Agent
  tick : ℕ
  time : ℚ
  running : Bool
  complete : Bool
  events : List SimulationEvent
  rng : ℕ

/-- The SIMULATION_END event `_check_completion` logs
(simulator.py:469-487): reason plus the current time. -/
def sim_end_event (tick : ℕ) (time : ℚ) (reason : String) : SimulationEvent :=
  { tick := tick, time := time, event_type := EventType.simulation_end,
    agent_id := none, room_id := none,
    data := { reason := some reason, time := some time } }

/-- `Simulator._check_completion` (simulator.py:462-487), in order:
`all_rescued` when no evacuee remains; else `all_agents_dead` when
`all(a.is_dead ...)` — vacuously true for an empty agent list; else
`time_limit` when `time ≥ time_cap`. -/
def check_completion (time_cap : ℚ) (s : SimState) : SimState :=
  let mkEnd : String → SimulationEvent := sim_end_event s.tick s.time
  if get_remaining_evacuees s.env = 0 then
    { s with complete := true, running := false,
             events := s.events ++ [mkEnd "all_rescued"] }
  else if s.agents.all (·.is_dead) then
    { s with complete := true, running := false,
             events := s.events ++ [mkEnd "all_agents_dead"] }
  else if time_cap ≤ s.time then
    { s with complete := true, running := false,
             events := s.events ++ [mkEnd "time_limit"] }
  else s

/-- `Simulator.step` (simulator.py:110-128): hazard update, safety check,
agent loop, completion check, then advance tick and time. -/
def sim_step (hp : HazardParams) (sq : ℚ → ℚ) (dt time_cap : ℚ)
    (s : SimState) : Except PyError SimState :=
  let hz := update_hazards hp s.cells s.env.rooms s.rng
  let env1 := { s.env with rooms := hz.2.1 }
  let safety := check_agent_safety hz.1 s.tick s.time s.agents
  let w0 : MidState :=
    { env := env1, mgr := s.mgr, agents := safety.1,
      events := s.events ++ safety.2 }
  match stepAgents hz.1 s.walls sq dt s.tick s.time
      (List.range safety.1.length) w0 with
  | Except.error e => Except.error e
  | Except.ok w =>
    let s1 : SimState :=
      { s with env := w.env, cells := hz.1, mgr := w.mgr, agents := w.agents,
               events := w.events, rng := hz.2.2 }
    let s2 := check_completion time_cap s1
    Except.ok { s2 with tick := s2.tick + 1, time := s2.time + dt }

/-- Aggregate results (`Simulator.get_results`, simulator.py:506-553). -/
structure Results where
  time : ℚ
  ticks : ℕ
  total_evacuees : ℕ
  evacuees_rescued : ℤ
  percent_rescued : ℚ
  total_rooms : ℕ
  rooms_cleared : ℕ
  percent_cleared : ℚ
  success_score : ℚ
  avg_priority : ℚ
  num_responders : ℕ
  avg_hazard_exposure : ℚ
  max_hazard : ℚ
deriving DecidableEq, Repr

/-- `AgentManager.get_average_hazard_exposure` (agent_manager.py:119-123). -/
def get_average_hazard_exposure (agents : List Agent) : ℚ :=
  if agents = [] then 0
  else (agents.map (·.cumulative_hazard_exposure)).sum / agents.length

/-- `Simulator.get_results` (simulator.py:506-553).  `num_agents` is
`params['agents']['count']`; the success score is
`rescued · avg_priority / (time · num_agents)` when `time > 0` and
`num_agents > 0`, else `0.0`, with `avg_priority` the mean of the
`priority` values of the EVACUEE_RESCUED events (`100.0` per missing key,
`100.0` overall when there are none). -/
def get_results (num_agents : ℕ) (s : SimState) : Results :=
  let total_evac := get_total_evacuees s.env
  let rescued : ℤ := (total_evac : ℤ) - get_remaining_evacuees s.env
  let total_rooms := (s.env.rooms.filter fun p => ¬ p.2.is_exit ∧ ¬ p.2.is_stair).length
  let cleared_rooms := (s.env.rooms.filter fun p => p.2.cleared).length
  let rescue_events := s.events.filter fun e => e.event_type = EventType.evacuee_rescued
  let avg_priority : ℚ :=
    if rescue_events ≠ [] then
      (rescue_events.map fun e => (e.data.priority).getD 100).sum / rescue_events.length
    else 100
  let success_score : ℚ :=
    if 0 < s.time ∧ 0 < num_agents then
      ((rescued : ℚ) * avg_priority) / (s.time * num_agents)
    else 0
  let percent_rescued : ℚ :=
    if 0 < total_evac then (rescued : ℚ) / total_evac else 1
  let percent_cleared : ℚ :=
    if 0 < total_rooms then (cleared_rooms : ℚ) / total_rooms else 1
  { time := s.time, ticks := s.tick, total_evacuees := total_evac,
    evacuees_rescued := rescued,
    percent_rescued := percent_rescued * 100,
    total_rooms := total_rooms, rooms_cleared := cleared_rooms,
    percent_cleared := percent_cleared * 100,
    success_score := success_score, avg_priority := avg_priority,
    num_responders := num_agents,
    avg_hazard_exposure := get_average_hazard_exposure s.agents,
    max_hazard := get_max_hazard s.cells }

/-- A full simulation configuration: layout-derived data, parameters and
seed (`Simulator.__init__`), plus the deterministic host square root. -/
structure Config where
  env0 : Env
  cells0 : List (Pos × GridCell)
  walls0 : List Pos
  agents : AgentParams
  hazard : HazardParams
  tick_duration : ℚ := 1
  time_cap : ℚ := 600
  random_seed : ℕ := 42
  sqrtQ : ℚ → ℚ

/-- Initial simulator state (`Simulator.__init__` + `AgentManager`). -/
def initState (cfg : Config) : SimState :=
  { env := cfg.env0, cells := cfg.cells0, walls := cfg.walls0,
    mgr := {}, agents := initialize_agents cfg.env0 cfg.agents,
    tick := 0, time := 0, running := false, complete := false,
    events := [], rng := cfg.random_seed }

/-- The `while self.running and self.tick < max_ticks` loop of
`Simulator.run` (simulator.py:501-502).  The fuel equals the maximum
number of iterations (each step increments `tick`), so it never runs
out before the loop condition fails. -/
def runLoop (hp : HazardParams) (sq : ℚ → ℚ) (dt time_cap : ℚ)
    (max_ticks : ℕ) : ℕ → SimState → Except PyError SimState
  | 0, s => Except.ok s
  | n + 1, s =>
    if s.running ∧ s.tick < max_ticks then
      match sim_step hp sq dt time_cap s with
      | Except.error e => Except.error e
      | Except.ok s1 => runLoop hp sq dt time_cap max_ticks n s1
    else Except.ok s

/-- `Simulator.run` with `max_ticks=None` (simulator.py:489-504):
`max_ticks = int(time_cap / dt) + 1`, run the loop, return the results
(paired here with the event log, the observable stream of §4.5). -/
def sim_run (cfg : Config) : Except PyError (List SimulationEvent × Results) :=
  let max_ticks := (pyTrunc (cfg.time_cap / cfg.tick_duration)).toNat + 1
  let s0 := { initState cfg with running := true }
  (runLoop cfg.hazard cfg.sqrtQ cfg.tick_duration cfg.time_cap max_ticks
      (max_ticks + 1) s0).map
    fun s => (s.events, get_results cfg.agents.count s)

/-- A four-cell corridor: the cells at y = 0.25, x = 0.25 .. 1.75, all safe. -/
def cellsW : List (Pos × GridCell) :=
  [((0.25, 0.25), { danger_level := 0, is_burning := false }),
   ((0.75, 0.25), { danger_level := 0, is_burning := false }),
   ((1.25, 0.25), { danger_level := 0, is_burning := false }),
   ((1.75, 0.25), { danger_level := 0, is_burning := false })]

/-- Pathfinder over the corridor, no walls. -/
def pfW : Pathfinder := { cells := cellsW, wallCells := [] }

/-- Hallway room at the west end of the corridor. -/
def roomHW : Room := { defaultRoom with is_hallway := true, x := 0.25, y := 0.25 }

/-- Office at the east end with one evacuee. -/
def roomO1W : Room :=
  { defaultRoom with x := 1.75, y := 0.25, evacuee_count := 1, evacuees_remaining := 1 }

/-- Exit room at the east end. -/
def roomEW : Room := { defaultRoom with x := 1.75, y := 0.25, is_exit := true }

/-- Test environment: exit, hallway and one open office along the corridor;
the room graph connects everything. -/
def envPrio : Env :=
  { rooms := [("E", roomEW), ("H", roomHW), ("O1", roomO1W)],
    exits := ["E"], connections := [], agent_starts := [], floors := [],
    shortestPath := fun a b => some [a, b],
    nearestExit := fun _ => some "E",
    graphEdge := fun _ _ => none,
    roomAt := fun _ _ _ => none }

/-- Idle agent standing in the hallway cell. -/
def agentW : Agent := { id := 0, x := 0.25, y := 0.25, floor := 0, current_room := "H" }

/-- Claim C2 — corrected.  At the concrete input (one evacuee, no danger,
centers 1.5 m apart so the 5 m floor applies), the code's priority is 20
while the spec formula `A·E·(β+λD)/max(d,d_min)` gives 2: the code divides
by `max(d,5)/10` (decision_engine.py:129), ten times the spec's value, so
the claimed equality fails. -/
theorem C2_counterexample :
    calculate_priority_index envPrio cellsW "O1" "H" = 20 ∧
    specPriorityIndex envPrio "O1" "H" = 2 ∧ (20 : ℚ) ≠ 2 :=
  ⟨by with_unfolding_all decide, by with_unfolding_all decide, by norm_num⟩

/-- Claim C2 — amended: whenever the caller is a room and the door-fire
check does not trip, the decision engine's priority index equals ten times
the spec formula `A_i · E_i · (β + λ·D_i) / max(d_pi, d_min)` with
β = λ = 10, d_min = 5 (the code divides by `max(d,5)/10`, not `max(d,5)`);
in particular it is 0 when `E_i = 0` or `A_i = 0`. -/
theorem C2_priority_is_ten_times_spec (env : Env)
    (cells : List (Pos × GridCell)) (room_id agent_position : String)
    (hpos : (alistLookup env.rooms agent_position).isSome = true)
    (hdoor : door_blocked env cells room_id = false) :
    calculate_priority_index env cells room_id agent_position =
      10 * specPriorityIndex env room_id agent_position := by
  unfold calculate_priority_index specPriorityIndex
  by_cases hE : ((getRoom env room_id).evacuees_remaining : ℚ) = 0
  · simp [hE]
  · by_cases hP : (env.shortestPath agent_position room_id).isNone
    · have h2 : ¬ (env.shortestPath agent_position room_id).isSome = true := by
        cases h : env.shortestPath agent_position room_id with
        | none => simp
        | some p => simp [h] at hP
      simp [hE, hP, h2]
    · have hS : (env.shortestPath agent_position room_id).isSome = true := by
        cases h : env.shortestPath agent_position room_id with
        | none => simp [h] at hP
        | some p => simp
      cases hroom : alistLookup env.rooms agent_position with
      | none => simp [hroom] at hpos
      | some agent_room =>
        have hne : (0 : ℚ) <
            qmax (qabs ((getRoom env room_id).x - agent_room.x) +
                  qabs ((getRoom env room_id).y - agent_room.y)) 5 := by
          rw [qmax_eq_max]
          exact lt_of_lt_of_le (by norm_num) (le_max_right _ 5)
        simp only [hE, hP, hdoor, hroom, hS, if_false, if_true, ite_true]
        simp [hE, hP, hdoor, hroom, hS]
        field_simp
        ring

/-- Claim C2 — witness for the amended theorem at the concrete
environment: the caller room exists, the door check passes, and the
code's priority is ten times the spec's formula. -/
theorem C2_witness :
    (alistLookup envPrio.rooms "H").isSome = true ∧
    door_blocked envPrio cellsW "O1" = false ∧
    calculate_priority_index envPrio cellsW "O1" "H" =
      10 * specPriorityIndex envPrio "O1" "H" :=
  ⟨by with_unfolding_all decide, by with_unfolding_all decide,
   C2_priority_is_ten_times_spec envPrio cellsW "O1" "H"
     (by with_unfolding_all decide) (by with_unfolding_all decide)⟩

/-- The center coordinate of the cell with integer index `n`
(cells are 0.5 m wide, centered at `n·0.5 + 0.25`). -/
def cellCenter (n : ℤ) : ℚ := n * 0.5 + 0.25

/-- Claim C6 — corrected.  For the diagonally adjacent cells centered at
(0.25, 0.25) and (0.75, 0.75), the code's heuristic (grid_astar.py:251,
Manhattan distance of the centers) is 1, while the spec's
"Chebyshev distance × cell size" is 0.5: the claimed equality fails. -/
theorem C6_counterexample :
    heuristic (0.25, 0.25) (0.75, 0.75) = 1 ∧
    specChebyshevHeuristic (0.25, 0.25) (0.75, 0.75) = 0.5 ∧
    (1 : ℚ) ≠ 0.5 :=
  ⟨by with_unfolding_all decide, by with_unfolding_all decide, by norm_num⟩

/-- Claim C6 — amended: for every pair of grid cells, the A* pathfinder's
heuristic equals the MANHATTAN distance between the two cells (in cells)
multiplied by the cell size 0.5 m — equivalently the Manhattan distance of
the cell centers — not the Chebyshev distance. -/
theorem C6_heuristic_is_manhattan (i j k l : ℤ) :
    heuristic (cellCenter i, cellCenter j) (cellCenter k, cellCenter l) =
      ((|i - k| : ℤ) + (|j - l| : ℤ)) * 0.5 := by
  unfold heuristic cellCenter
  rw [qabs_eq_abs, qabs_eq_abs]
  have h1 : (i : ℚ) * 0.5 + 0.25 - ((k : ℚ) * 0.5 + 0.25) = ((i - k : ℤ) : ℚ) * 0.5 := by
    push_cast
    ring
  have h2 : (j : ℚ) * 0.5 + 0.25 - ((l : ℚ) * 0.5 + 0.25) = ((j - l : ℤ) : ℚ) * 0.5 := by
    push_cast
    ring
  rw [h1, h2, abs_mul, abs_mul]
  rw [abs_of_nonneg (by norm_num : (0 : ℚ) ≤ 0.5)]
  rw [← Int.cast_abs, ← Int.cast_abs]
  push_cast
  ring

/-- A single burning cell, for the safety-check tests. -/
def cellsBurn : List (Pos × GridCell) :=
  [((0.25, 0.25), { danger_level := 1, is_burning := true })]

/-- A live agent standing on the burning cell (its position (0.3, 0.4)
snaps to cell (0.25, 0.25)). -/
def agentBurn : Agent := { id := 0, x := 0.3, y := 0.4, floor := 0, current_room := "H" }

/-- Claim C3 — corrected.  At the concrete lethal input the safety check
does set `is_dead`, but the agent's state becomes IDLE — `AgentState`
(agent.py:8-15) has no Dead member — and the one event logged has kind
SIMULATION_END with reason `agent_death` — `EventType` (simulator.py:15-25)
has no AgentDied member, and the spec's §3 event list makes AgentDied and
SimulationEnd distinct kinds.  This refutes "the agent enters the terminal
Dead state, and an AgentDied event is emitted". -/
theorem C3_counterexample :
    ((check_agent_safety cellsBurn 0 0 [agentBurn]).1.map
        fun a => (a.is_dead, a.state)) = [(true, AgentState.idle)] ∧
    ((check_agent_safety cellsBurn 0 0 [agentBurn]).2.map
        fun e => (e.event_type, e.data.reason)) =
      [(EventType.simulation_end, some "agent_death")] := by
  with_unfolding_all decide

/-- Claim C3 — amended: whenever a live agent occupies a cell whose danger
exceeds 0.95 or whose cell is burning, the safety check marks it dead
(`is_dead = true` — terminal in effect, since the tick loop skips dead
agents), resets its state to Idle, and emits a SIMULATION_END event with
reason `agent_death` for it. -/
theorem C3_safety_check (cells : List (Pos × GridCell)) (tick : ℕ)
    (time : ℚ) (agents : List Agent) (i : ℕ) (a : Agent)
    (hget : agents[i]? = some a)
    (hlive : a.is_dead = false)
    (hlethal : lethalCellAt cells a = true) :
    (check_agent_safety cells tick time agents).1[i]? = some (killAgent a) ∧
    deathEvent tick time cells a ∈ (check_agent_safety cells tick time agents).2 := by
  constructor
  · unfold check_agent_safety
    simp only [List.getElem?_map, hget, Option.map_some]
    simp [hlive, hlethal]
  · unfold check_agent_safety
    simp only [List.mem_filterMap]
    refine ⟨a, ?_, ?_⟩
    · exact List.getElem?_mem hget
    · simp [hlive, hlethal]

/-- Claim C3 — witness for the amended theorem on the burning-cell
fixture. -/
theorem C3_witness :
    (check_agent_safety cellsBurn 0 0 [agentBurn]).1[0]? = some (killAgent agentBurn) ∧
    deathEvent 0 0 cellsBurn agentBurn ∈ (check_agent_safety cellsBurn 0 0 [agentBurn]).2 :=
  C3_safety_check cellsBurn 0 0 [agentBurn] 0 agentBurn rfl rfl
    (by with_unfolding_all decide)

/-- A zero-agent simulation state over the test environment (one evacuee
remains in O1), at tick 0 with plenty of time budget. -/
def stZero : SimState :=
  { env := envPrio, cells := cellsW, walls := [], mgr := {}, agents := [],
    tick := 0, time := 0, running := true, complete := false,
    events := [], rng := 42 }

/-- Claim C5 — corrected.  With zero agents and one evacuee remaining, the
completion check reports `all_agents_dead` (not `time_limit`):
`all(a.is_dead for a in [])` is vacuously true (simulator.py:474), so that
branch fires before the time check.  The claim's "never reports
all_agents_dead" fails. -/
theorem C5_counterexample :
    (check_completion 600 stZero).events =
      [sim_end_event 0 0 "all_agents_dead"] ∧
    "all_agents_dead" ≠ "time_limit" :=
  ⟨by with_unfolding_all decide, by decide⟩

/-- Claim C5 — amended: with `agents.count = 0` the manager spawns no
agents, and the first completion check terminates the run via
`all_rescued` when the remaining-evacuee count is zero, and via
`all_agents_dead` (the vacuous `all` over an empty agent list) whenever at
least one evacuee remains; `time_limit` is not reported in the latter
case. -/
theorem C5_zero_agents (env : Env) (ap : AgentParams) (cap : ℚ)
    (s : SimState) (hcount : ap.count = 0) (hagents : s.agents = []) :
    initialize_agents env ap = [] ∧
    (get_remaining_evacuees s.env = 0 →
      (check_completion cap s).events = s.events ++ [sim_end_event s.tick s.time "all_rescued"]) ∧
    (0 < get_remaining_evacuees s.env →
      (check_completion cap s).events = s.events ++ [sim_end_event s.tick s.time "all_agents_dead"]) := by
  refine ⟨?_, ?_, ?_⟩
  · simp [initialize_agents, hcount]
  · intro h0
    simp [check_completion, h0]
  · intro hpos
    have h0 : ¬ get_remaining_evacuees s.env = 0 := Nat.pos_iff_ne_zero.mp hpos
    simp [check_completion, h0, hagents]

/-- Claim C5 — witness for the amended theorem: zero configured agents on
the test environment (one evacuee remaining) end the run with reason
`all_agents_dead` on the first check. -/
theorem C5_witness :
    initialize_agents envPrio { count := 0 } = [] ∧
    (check_completion 600 stZero).events =
      stZero.events ++ [sim_end_event stZero.tick stZero.time "all_agents_dead"] :=
  ⟨(C5_zero_agents envPrio { count := 0 } 600 stZero rfl rfl).1,
   (C5_zero_agents envPrio { count := 0 } 600 stZero rfl rfl).2.2
     (by with_unfolding_all decide)⟩

/-- The test environment with the office already cleared and emptied: no
uncleared room remains, so an idle agent falls through to the escape
route. -/
def envEscape : Env :=
  { envPrio with
    rooms := [("E", roomEW), ("H", roomHW),
              ("O1", { roomO1W with cleared := true, evacuees_remaining := 0 })] }

/-- Claim C1 — code bug.  At a concrete state satisfying the claim's
premise — an idle agent with no assignable room (every room cleared and
empty) and a grid path to the exit available under `avoid_danger=true`,
threshold 0.85 — the assignment falls into `_assign_escape_route`
(simulator.py:221-250), which executes `agent.state = AgentState.ESCAPING`;
the `AgentState` enum (agent.py:8-15) has no ESCAPING member, so the tick
raises `AttributeError` instead of transitioning the agent to Escaping and
emitting the AgentMove(escape) event. -/
theorem C1_escape_transition_raises :
    get_uncleared_rooms envEscape = [] ∧
    (find_path pfW agentW.x agentW.y (getRoom envEscape "E").x
        (getRoom envEscape "E").y true 0.85).isSome = true ∧
    assign_agent_target envEscape pfW cellsW 0 0 agentW =
      Except.error PyError.attributeError := by
  refine ⟨by with_unfolding_all decide, by with_unfolding_all decide, ?_⟩
  with_unfolding_all rfl

/-- The priority values recorded on the EVACUEE_RESCUED events of a log
(the spec's `P_i` at rescue time, §4.6). -/
def recordedRescuePriorities (events : List SimulationEvent) : List ℚ :=
  (events.filter fun e => e.event_type = EventType.evacuee_rescued).filterMap
    fun e => e.data.priority

/-- The spec's average rescue priority, written from its words (§4.6):
the arithmetic mean of the priorities recorded on all EvacueeRescued
events, taken as 100.0 when no such event exists. -/
def specAvgRescuePriority (events : List SimulationEvent) : ℚ :=
  if recordedRescuePriorities events = [] then 100
  else (recordedRescuePriorities events).sum / (recordedRescuePriorities events).length

theorem map_getD_eq_filterMap (l : List SimulationEvent)
    (h : ∀ e ∈ l, (e.data.priority).isSome = true) :
    (l.map fun e => (e.data.priority).getD 100) =
      l.filterMap fun e => e.data.priority := by
  induction l with
  | nil => rfl
  | cons e es ih =>
    have he := h e (List.mem_cons_self e es)
    cases hp : e.data.priority with
    | none => rw [hp] at he; simp at he
    | some v =>
      simp only [List.map_cons, List.filterMap_cons, hp, Option.getD_some]
      exact congrArg (v :: ·) (ih fun x hx => h x (List.mem_cons_of_mem e hx))

/-- Claim C7 — confirmed.  Whenever every EVACUEE_RESCUED event carries
its recorded priority (as the engine always writes it,
simulator.py:373-374), the reported success score equals
`rescued · avg_rescue_priority / (sim_time · responder_count)` when
`sim_time > 0` and `responder_count > 0`, and `0.0` otherwise, where
`rescued = total − remaining` and the average is the mean of the recorded
priorities (100.0 when no rescue event exists). -/
theorem C7_success_score (n : ℕ) (s : SimState)
    (hrec : ∀ e ∈ s.events, e.event_type = EventType.evacuee_rescued →
      (e.data.priority).isSome = true) :
    (0 < s.time → 0 < n →
      (get_results n s).success_score =
        ((get_total_evacuees s.env : ℚ) - (get_remaining_evacuees s.env : ℚ)) *
          specAvgRescuePriority s.events / (s.time * n)) ∧
    (s.time ≤ 0 ∨ n = 0 → (get_results n s).success_score = 0) := by
  have hall : ∀ e ∈ s.events.filter
      (fun e => e.event_type = EventType.evacuee_rescued),
      (e.data.priority).isSome = true := by
    intro e he
    have hm := List.mem_filter.mp he
    exact hrec e hm.1 (by simpa using hm.2)
  have hmapeq := map_getD_eq_filterMap _ hall
  have havg :
      (if (s.events.filter fun e => e.event_type = EventType.evacuee_rescued) ≠ [] then
        ((s.events.filter fun e => e.event_type = EventType.evacuee_rescued).map
            fun e => (e.data.priority).getD 100).sum /
          ((s.events.filter fun e => e.event_type = EventType.evacuee_rescued).length : ℚ)
      else 100) = specAvgRescuePriority s.events := by
    unfold specAvgRescuePriority recordedRescuePriorities
    by_cases hre : (s.events.filter fun e => e.event_type = EventType.evacuee_rescued) = []
    · simp [hre]
    · have hfm : ¬ ((s.events.filter
          fun e => e.event_type = EventType.evacuee_rescued).filterMap
            fun e => e.data.priority) = [] := by
        rw [← hmapeq]
        simpa using hre
      have hlen : ((s.events.filter
          fun e => e.event_type = EventType.evacuee_rescued).filterMap
            fun e => e.data.priority).length =
          (s.events.filter fun e => e.event_type = EventType.evacuee_rescued).length := by
        rw [← hmapeq, List.length_map]
      simp only [hre, hfm, if_false, if_neg, ne_eq, not_false_iff, ite_true, ite_false]
      rw [← hmapeq, List.length_map]
  constructor
  · intro ht hn
    unfold get_results
    simp only [ht, hn, and_self, if_true, ite_true]
    rw [havg]
    have hcast : (((get_total_evacuees s.env : ℤ) - (get_remaining_evacuees s.env : ℤ) : ℤ) : ℚ)
        = (get_total_evacuees s.env : ℚ) - (get_remaining_evacuees s.env : ℚ) := by
      push_cast
      ring
    simp [ht, hn, hcast]
  · intro hor
    unfold get_results
    have : ¬ (0 < s.time ∧ 0 < n) := by
      rcases hor with h | h
      · exact fun hc => absurd hc.1 (not_lt.mpr h)
      · exact fun hc => absurd hc.2 (by simp [h])
    simp [this]

/-- The test environment with the office emptied (its single evacuee
rescued), for result aggregation. -/
def envRes : Env :=
  { envPrio with
    rooms := [("E", roomEW), ("H", roomHW), ("O1", { roomO1W with evacuees_remaining := 0 })] }

/-- An EVACUEE_RESCUED event carrying a recorded priority of 50. -/
def rescueEvent50 : SimulationEvent :=
  { tick := 1, time := 1, event_type := EventType.evacuee_rescued,
    agent_id := some 0, room_id := some "E", data := { priority := some 50 } }

/-- Simulation state after that rescue: time 10, one rescue event. -/
def stRes : SimState :=
  { stZero with env := envRes, time := 10, events := [rescueEvent50] }

/-- Claim C7 — witness: at the concrete terminated state (1 of 1 evacuees
rescued at priority 50, time 10, two responders) the theorem applies and
the score equals the formula (concretely 50/20). -/
theorem C7_witness :
    (0 : ℚ) < stRes.time ∧ 0 < 2 ∧
    (get_results 2 stRes).success_score =
      ((get_total_evacuees stRes.env : ℚ) - (get_remaining_evacuees stRes.env : ℚ)) *
        specAvgRescuePriority stRes.events / (stRes.time * 2) :=
  ⟨by with_unfolding_all decide, by decide,
   (C7_success_score 2 stRes (by with_unfolding_all decide)).1
     (by with_unfolding_all decide) (by decide)⟩

/-- Environment with an open office but NO exits: the post-search pickup
cannot find an exit path. -/
def envNoExit : Env :=
  { envPrio with exits := [], rooms := [("H", roomHW), ("O1", roomO1W)] }

/-- Agent finishing its search of O1 this tick (1 s of service time
remains, dt = 1). -/
def agentSearch : Agent :=
  { id := 0, x := 1.75, y := 0.25, floor := 0, current_room := "O1",
    state := AgentState.searching, time_remaining_action := 1 }

/-- Claim C8 — corrected.  At the concrete input (search completes on a
room with one evacuee, environment without exits) the agent ends the tick
with `carrying_evacuee = true` while its state is Idle, not Dragging: the
pickup sets `carrying_evacuee` (simulator.py:420), but the DRAGGING
transition happens only if a grid path to an exit is found
(simulator.py:435-445), and `complete_search` left the state at IDLE.
This refutes the invariant `carrying_evacuee ⇒ state ∈ {Dragging}`. -/
theorem C8_counterexample :
    (process_searching envNoExit pfW 1 0 0 agentSearch).1.carrying_evacuee = true ∧
    (process_searching envNoExit pfW 1 0 0 agentSearch).1.state = AgentState.idle ∧
    AgentState.idle ≠ AgentState.dragging := by
  refine ⟨?_, ?_, by decide⟩
  · with_unfolding_all decide
  · with_unfolding_all decide

theorem plan_drag_fields (env : Env) (pf : Pathfinder) (a : Agent) :
    (plan_drag_to_exit env pf a).carrying_evacuee = a.carrying_evacuee ∧
    (plan_drag_to_exit env pf a).evacuee_source_room = a.evacuee_source_room ∧
    ((plan_drag_to_exit env pf a).state = AgentState.dragging ∨
      (plan_drag_to_exit env pf a).state = a.state) := by
  unfold plan_drag_to_exit
  cases hne : nearest_exit_by_manhattan env a with
  | none => simp
  | some exit_id =>
    cases hfp : find_path pf a.x a.y (getRoom env exit_id).x (getRoom env exit_id).y true 0.8 with
    | none => simp [hfp]
    | some p =>
      by_cases hp : p = []
      · simp [hfp, hp]
      · simp [hfp, hp]

/-- Claim C8 — amended: across the searching step (the one place that sets
`carrying_evacuee`), for an agent not already carrying: afterwards the
evacuee source room is set iff the agent is carrying, and a carrying agent
is in Dragging — or in Idle, in the failure case where no grid path to an
exit was found at pickup. -/
theorem C8_carrying_invariant (env : Env) (pf : Pathfinder) (dt : ℚ)
    (tick : ℕ) (time : ℚ) (agent : Agent)
    (hc : agent.carrying_evacuee = false)
    (hs : agent.evacuee_source_room = none) :
    ((process_searching env pf dt tick time agent).1.carrying_evacuee = true ↔
      ((process_searching env pf dt tick time agent).1.evacuee_source_room).isSome = true) ∧
    ((process_searching env pf dt tick time agent).1.carrying_evacuee = true →
      (process_searching env pf dt tick time agent).1.state = AgentState.dragging ∨
      (process_searching env pf dt tick time agent).1.state = AgentState.idle) := by
  by_cases h1 : agent.time_remaining_action - dt ≤ 0
  · by_cases h2 : 0 < (getRoom env agent.current_room).evacuees_remaining
    · have hfields := plan_drag_fields env pf
        { complete_search
            { agent with
              time_remaining_action := agent.time_remaining_action - dt,
              time_in_current_state := agent.time_in_current_state + dt } with
          carrying_evacuee := true,
          evacuee_source_room := some agent.current_room }
      simp only [process_searching, mark_cleared, discover_evacuees, complete_search,
        h1, h2, if_true, ite_true] at hfields ⊢
      rcases hfields with ⟨hf1, hf2, hf3⟩
      constructor
      · rw [hf1, hf2]
        simp
      · intro _
        rcases hf3 with h | h
        · exact Or.inl h
        · exact Or.inr h
    · simp [process_searching, mark_cleared, discover_evacuees, complete_search,
        h1, h2, hc, hs]
  · simp [process_searching, h1, hc, hs]

/-- Claim C8 — witness for the amended theorem on the exitless fixture:
the agent ends carrying with its source room set (and, here, in the Idle
failure state). -/
theorem C8_witness :
    ((process_searching envNoExit pfW 1 0 0 agentSearch).1.carrying_evacuee = true ↔
      ((process_searching envNoExit pfW 1 0 0 agentSearch).1.evacuee_source_room).isSome = true) ∧
    ((process_searching envNoExit pfW 1 0 0 agentSearch).1.carrying_evacuee = true →
      (process_searching envNoExit pfW 1 0 0 agentSearch).1.state = AgentState.dragging ∨
      (process_searching envNoExit pfW 1 0 0 agentSearch).1.state = AgentState.idle) :=
  C8_carrying_invariant envNoExit pfW 1 0 0 agentSearch rfl rfl

/-- A complete concrete configuration: the corridor layout, hazard
disabled, zero agents, seed 42, and an arbitrary deterministic square
root. -/
def cfgZero : Config :=
  { env0 := envPrio, cells0 := cellsW, walls0 := [],
    agents := { count := 0 }, hazard := { enabled := false },
    sqrtQ := fun q => q }

/-- Claim C9 — confirmed.  `run()` is a pure function of the configuration
(layout, parameters, seed): two executions over equal configurations
produce the same `Except` outcome — identical event sequences (every tick,
time, type, agent id, room id and data field) and identical results.  In
the source every stateful ingredient is deterministic: the RNG is the
`np.random` stream seeded once from `random_seed` (modelled as the
explicit generator state threaded through the hazard tick), dicts iterate
in insertion order, and `heapq` tie-breaks by full tuple comparison. -/
theorem C9_run_deterministic (cfg1 cfg2 : Config) (h : cfg1 = cfg2) :
    sim_run cfg1 = sim_run cfg2 := by
  rw [h]

/-- Claim C9 — witness: the determinism theorem applied to the concrete
zero-agent configuration. -/
theorem C9_witness : sim_run cfgZero = sim_run cfgZero :=
  C9_run_deterministic cfgZero cfgZero rfl

/-- Loop invariant of the room-selection fold: with `processed` the rooms
scanned so far, either no best is held (then every scanned room had no
valid grid path or a priority at most the initial −1), or the held best
`r` has its committed path and priority, strictly beats every earlier
scanned room with a valid path, and weakly beats every scanned room with a
valid path. -/
def SelInv (env : Env) (pf : Pathfinder) (cells : List (Pos × GridCell))
    (agent : Agent) (processed : List String)
    (st : Option String × ℚ × Option (List Pos)) : Prop :=
  match st with
  | (none, pr, pa) => pr = -1 ∧ pa = none ∧
      ∀ r ∈ processed, candidate_grid_path env pf agent r = none ∨
        calculate_priority_index env cells r agent.current_room ≤ -1
  | (some r, pr, pa) =>
      (∃ l₁ l₂, processed = l₁ ++ r :: l₂ ∧
        ∀ x ∈ l₁, candidate_grid_path env pf agent x ≠ none →
          calculate_priority_index env cells x agent.current_room <
            calculate_priority_index env cells r agent.current_room) ∧
      candidate_grid_path env pf agent r = pa ∧ pa ≠ none ∧
      pr = calculate_priority_index env cells r agent.current_room ∧
      ∀ x ∈ processed, candidate_grid_path env pf agent x ≠ none →
        calculate_priority_index env cells x agent.current_room ≤
          calculate_priority_index env cells r agent.current_room

theorem select_step_inv (env : Env) (pf : Pathfinder)
    (cells : List (Pos × GridCell)) (agent : Agent)
    (processed : List String) (st : Option String × ℚ × Option (List Pos))
    (x : String) (h : SelInv env pf cells agent processed st) :
    SelInv env pf cells agent (processed ++ [x])
      (select_step env pf cells agent st x) := by
  obtain ⟨br, pr, pa⟩ := st
  cases br with
  | none =>
    obtain ⟨h1, h2, h3⟩ := h
    by_cases hlt : pr < calculate_priority_index env cells x agent.current_room
    · cases hC : candidate_grid_path env pf agent x with
      | some pth =>
        simp only [select_step, hlt, if_true, ite_true, hC, SelInv]
        refine ⟨⟨processed, [], by simp, ?_⟩, by trivial, by simp, by trivial, ?_⟩
        · intro y hy hCy
          rcases h3 y hy with hn | hle
          · exact absurd hn hCy
          · calc calculate_priority_index env cells y agent.current_room
                ≤ -1 := hle
              _ < _ := h1 ▸ hlt
        · intro y hy hCy
          rcases List.mem_append.mp hy with hy | hy
          · rcases h3 y hy with hn | hle
            · exact absurd hn hCy
            · exact le_of_lt (lt_of_le_of_lt hle (h1 ▸ hlt))
          · rcases List.mem_singleton.mp hy with rfl
            exact le_refl _
      | none =>
        simp only [select_step, hlt, if_true, ite_true, hC, SelInv]
        refine ⟨h1, h2, ?_⟩
        intro y hy
        rcases List.mem_append.mp hy with hy | hy
        · exact h3 y hy
        · rcases List.mem_singleton.mp hy with rfl
          exact Or.inl hC
    · simp only [select_step, hlt, if_false, ite_false, SelInv]
      refine ⟨h1, h2, ?_⟩
      intro y hy
      rcases List.mem_append.mp hy with hy | hy
      · exact h3 y hy
      · rcases List.mem_singleton.mp hy with rfl
        exact Or.inr (h1 ▸ le_of_not_lt hlt)
  | some r =>
    obtain ⟨⟨l₁, l₂, heq, hltl⟩, hC, hne, hpr, hle⟩ := h
    by_cases hlt : pr < calculate_priority_index env cells x agent.current_room
    · cases hC2 : candidate_grid_path env pf agent x with
      | some pth =>
        simp only [select_step, hlt, if_true, ite_true, hC2, SelInv]
        refine ⟨⟨processed, [], by simp, ?_⟩, by trivial, by simp, by trivial, ?_⟩
        · intro y hy hCy
          exact lt_of_le_of_lt (hle y hy hCy) (hpr ▸ hlt)
        · intro y hy hCy
          rcases List.mem_append.mp hy with hy | hy
          · exact le_of_lt (lt_of_le_of_lt (hle y hy hCy) (hpr ▸ hlt))
          · rcases List.mem_singleton.mp hy with rfl
            exact le_refl _
      | none =>
        simp only [select_step, hlt, if_true, ite_true, hC2, SelInv]
        refine ⟨⟨l₁, l₂ ++ [x], by simp [heq], hltl⟩, hC, hne, hpr, ?_⟩
        intro y hy hCy
        rcases List.mem_append.mp hy with hy | hy
        · exact hle y hy hCy
        · rcases List.mem_singleton.mp hy with rfl
          exact absurd hC2 hCy
    · simp only [select_step, hlt, if_false, ite_false, SelInv]
      refine ⟨⟨l₁, l₂ ++ [x], by simp [heq], hltl⟩, hC, hne, hpr, ?_⟩
      intro y hy hCy
      rcases List.mem_append.mp hy with hy | hy
      · exact hle y hy hCy
      · rcases List.mem_singleton.mp hy with rfl
        exact hpr ▸ le_of_not_lt hlt

theorem select_fold_inv (env : Env) (pf : Pathfinder)
    (cells : List (Pos × GridCell)) (agent : Agent) :
    ∀ (rooms processed : List String) (st : Option String × ℚ × Option (List Pos)),
      SelInv env pf cells agent processed st →
      SelInv env pf cells agent (processed ++ rooms)
        (rooms.foldl (select_step env pf cells agent) st) := by
  intro rooms
  induction rooms with
  | nil =>
    intro processed st h
    simpa using h
  | cons x xs ih =>
    intro processed st h
    have h1 := select_step_inv env pf cells agent processed st x h
    have h2 := ih (processed ++ [x]) _ h1
    simpa [List.append_assoc] using h2

theorem candidate_path_long (env : Env) (pf : Pathfinder) (agent : Agent)
    (room_id : String) (path : List Pos)
    (h : candidate_grid_path env pf agent room_id = some path) :
    1 < path.length := by
  unfold candidate_grid_path at h
  cases hfp : find_path pf agent.x agent.y (getRoom env room_id).x
      (getRoom env room_id).y true 0.8 with
  | none => rw [hfp] at h; exact absurd h (by simp)
  | some p =>
    rw [hfp] at h
    by_cases hl : 1 < p.length
    · simp only [hl, if_true, ite_true, Option.some_inj] at h
      exact h ▸ hl
    · simp [hl] at h

/-- Claim C4 — amended: whenever an idle agent is assigned a target room,
the chosen room is drawn from the uncleared pool (spec-modelled: uncleared
or still-occupied office rooms), its priority may be 0 (the fold starts at
−1, simulator.py:186), it maximises the priority over the uncleared rooms
that admit a valid grid path (length > 1, `avoid_danger=true`, threshold
0.80) — rooms whose path attempt fails are skipped even at higher
priority — ties break to the earliest room in the pool (the lowest id when
the pool is id-sorted), and the committed path and MOVING transition carry
exactly the pathfinder's path, with the AGENT_MOVE event logged. -/
theorem C4_room_selection (env : Env) (pf : Pathfinder)
    (cells : List (Pos × GridCell)) (agent : Agent) (tick : ℕ) (time : ℚ)
    (r : String) (p : ℚ) (path : List Pos)
    (hsel : select_best_room env pf cells agent = (some r, p, some path))
    (hr : r ≠ "")
    (hsorted : (get_uncleared_rooms env).Pairwise (· ≤ ·)) :
    r ∈ get_uncleared_rooms env ∧
    candidate_grid_path env pf agent r = some path ∧
    p = calculate_priority_index env cells r agent.current_room ∧
    (∀ x ∈ get_uncleared_rooms env, candidate_grid_path env pf agent x ≠ none →
      calculate_priority_index env cells x agent.current_room ≤ p) ∧
    (∀ x ∈ get_uncleared_rooms env, candidate_grid_path env pf agent x ≠ none →
      calculate_priority_index env cells x agent.current_room = p → r ≤ x) ∧
    assign_agent_target env pf cells tick time agent =
      Except.ok ({ agent with
          target_room := some r, waypoints := path,
          current_waypoint := 0, state := AgentState.moving },
        [{ tick := tick, time := time, event_type := EventType.agent_move,
           agent_id := some agent.id, room_id := some agent.current_room,
           data := { target := some r, priority := some p } }]) := by
  have hinv := select_fold_inv env pf cells agent (get_uncleared_rooms env) []
    (none, -1, none) ⟨rfl, rfl, by simp⟩
  rw [List.nil_append] at hinv
  rw [show (get_uncleared_rooms env).foldl (select_step env pf cells agent)
        (none, -1, none) = select_best_room env pf cells agent from rfl,
      hsel] at hinv
  obtain ⟨⟨l₁, l₂, heq, hltl⟩, hC, hne, hpr, hle⟩ := hinv
  have hCr : candidate_grid_path env pf agent r = some path := hC
  have hmem : r ∈ get_uncleared_rooms env := by
    rw [heq]
    exact List.mem_append.mpr (Or.inr (List.mem_cons_self r l₂))
  have hplen := candidate_path_long env pf agent r path hCr
  have hpathne : path ≠ [] := by
    intro hnil
    rw [hnil] at hplen
    simp at hplen
  refine ⟨hmem, hCr, hpr, ?_, ?_, ?_⟩
  · intro x hx hCx
    rw [hpr]
    exact hle x hx hCx
  · intro x hx hCx hpx
    rcases List.mem_append.mp (heq ▸ hx) with hx1 | hx2
    · exact absurd (hpx.symm ▸ hpr ▸ hltl x hx1 hCx) (lt_irrefl _)
    · rcases List.mem_cons.mp hx2 with rfl | hx2
      · exact le_refl _
      · have hpw := heq ▸ hsorted
        have h2 := (List.pairwise_append.mp hpw).2.1
        exact (List.pairwise_cons.mp h2).1 x hx2
  · unfold assign_agent_target
    rw [hsel]
    have htruthy : truthyRoomAndPath (some r) (some path) = true := by
      simp [truthyRoomAndPath, hr, hpathne]
    simp only [htruthy, if_true, ite_true]
    rfl

/-- The corridor path the pathfinder returns across the test cells. -/
def corridorPath : List Pos :=
  [(0.25, 0.25), (0.75, 0.25), (1.25, 0.25), (1.75, 0.25)]

/-- The test environment with the office uncleared but already empty
(zero evacuees remaining), so its priority index is 0. -/
def envZeroPri : Env :=
  { envPrio with
    rooms := [("E", roomEW), ("H", roomHW), ("O1", { roomO1W with evacuees_remaining := 0 })] }

/-- Claim C4 — corrected.  The idle agent IS assigned room O1 as a MOVING
target although O1's priority index is 0, because the fold's best-priority
starts at −1 (simulator.py:186) and `0 > -1`; this refutes "the chosen
room is an uncleared office room with priority P_i > 0". -/
theorem C4_counterexample :
    select_best_room envZeroPri pfW cellsW agentW = (some "O1", 0, some corridorPath) ∧
    calculate_priority_index envZeroPri cellsW "O1" "H" = 0 ∧
    ¬ (0 : ℚ) > 0 ∧
    assign_agent_target envZeroPri pfW cellsW 0 0 agentW =
      Except.ok ({ agentW with
          target_room := some "O1", waypoints := corridorPath,
          current_waypoint := 0, state := AgentState.moving },
        [{ tick := 0, time := 0, event_type := EventType.agent_move,
           agent_id := some 0, room_id := some "H",
           data := { target := some "O1", priority := some 0 } }]) := by
  refine ⟨by with_unfolding_all decide, by with_unfolding_all decide, by norm_num, ?_⟩
  with_unfolding_all rfl

/-- Claim C4 — witness for the amended theorem: on the test environment
the selection returns O1 at priority 20 with the corridor path, and the
theorem's conclusions hold there. -/
theorem C4_witness :
    "O1" ∈ get_uncleared_rooms envPrio ∧
    candidate_grid_path envPrio pfW agentW "O1" = some corridorPath ∧
    (20 : ℚ) = calculate_priority_index envPrio cellsW "O1" "H" :=
  ⟨(C4_room_selection envPrio pfW cellsW agentW 0 0 "O1" 20 corridorPath
      (by with_unfolding_all decide) (by decide) (by with_unfolding_all decide)).1,
   (C4_room_selection envPrio pfW cellsW agentW 0 0 "O1" 20 corridorPath
      (by with_unfolding_all decide) (by decide) (by with_unfolding_all decide)).2.1,
   (C4_room_selection envPrio pfW cellsW agentW 0 0 "O1" 20 corridorPath
      (by with_unfolding_all decide) (by decide) (by with_unfolding_all decide)).2.2.1⟩

/-- Two cells are 8-adjacent: their difference is one of the pathfinder's
neighbor offsets. -/
def adjacentCells (a b : Pos) : Prop :=
  (b.1 - a.1, b.2 - a.2) ∈ neighborOffsets

theorem adjacentCells_bounds (a b : Pos) (h : adjacentCells a b) :
    qabs (b.1 - a.1) ≤ 0.5 ∧ qabs (b.2 - a.2) ≤ 0.5 := by
  unfold adjacentCells neighborOffsets at h
  simp only [List.mem_cons, List.not_mem_nil, or_false, Prod.mk.injEq] at h
  rcases h with ⟨h1, h2⟩ | ⟨h1, h2⟩ | ⟨h1, h2⟩ | ⟨h1, h2⟩ |
    ⟨h1, h2⟩ | ⟨h1, h2⟩ | ⟨h1, h2⟩ | ⟨h1, h2⟩ <;>
    rw [h1, h2] <;> norm_num [qabs]

theorem alistLookup_mem {α : Type} [DecidableEq α] {β : Type}
    (l : List (α × β)) (k : α) (v : β) (h : alistLookup l k = some v) :
    (k, v) ∈ l := by
  induction l with
  | nil => exact absurd h (by simp [alistLookup])
  | cons p ps ih =>
    obtain ⟨p1, p2⟩ := p
    by_cases hk : p1 = k
    · rw [alistLookup, if_pos hk] at h
      injection h with h
      subst hk
      subst h
      exact List.mem_cons_self _ _
    · rw [alistLookup, if_neg hk] at h
      exact List.mem_cons_of_mem _ (ih h)

/-- The invariant of the A* `came_from` map: every entry maps a VALID cell
(the expansion only records validated neighbors) to an 8-adjacent
predecessor. -/
def CameInv (pf : Pathfinder) (avoid : Bool) (θ : ℚ)
    (cf : List (Pos × Pos)) : Prop :=
  ∀ pr ∈ cf, is_valid_cell pf pr.1 avoid θ = true ∧ adjacentCells pr.2 pr.1

theorem is_valid_cell_spec (pf : Pathfinder) (c : Pos) (avoid : Bool)
    (θ : ℚ) (h : is_valid_cell pf c avoid θ = true) :
    c ∉ pf.wallCells ∧ (lookup_cell pf c).isSome = true := by
  unfold is_valid_cell at h
  by_cases hw : c ∈ pf.wallCells
  · rw [if_pos hw] at h
    exact absurd h (by simp)
  · rw [if_neg hw] at h
    refine ⟨hw, ?_⟩
    cases hl : lookup_cell pf c with
    | none => rw [hl] at h; exact absurd h (by simp)
    | some cc => simp

theorem reconstructAux_props (pf : Pathfinder) (avoid : Bool) (θ : ℚ) :
    ∀ (fuel : ℕ) (cf : List (Pos × Pos)) (cur : Pos) (acc res : List Pos),
      CameInv pf avoid θ cf →
      List.Chain' adjacentCells (cur :: acc) →
      (∀ x ∈ acc, is_valid_cell pf x avoid θ = true) →
      reconstructAux fuel cf cur acc = some res →
      List.Chain' adjacentCells res ∧
      (∀ x ∈ res.tail, is_valid_cell pf x avoid θ = true) ∧
      res.getLast? = (cur :: acc).getLast? := by
  intro fuel
  induction fuel with
  | zero =>
    intro cf cur acc res _ _ _ h
    exact absurd h (by simp [reconstructAux])
  | succ n ih =>
    intro cf cur acc res hinv hchain hval hres
    rw [reconstructAux] at hres
    cases hl : alistLookup cf cur with
    | none =>
      rw [hl] at hres
      injection hres with hres
      subst hres
      exact ⟨hchain, hval, rfl⟩
    | some prev =>
      rw [hl] at hres
      have hprops := hinv (cur, prev) (alistLookup_mem cf cur prev hl)
      have hchain2 : List.Chain' adjacentCells (prev :: cur :: acc) :=
        List.chain'_cons.mpr ⟨hprops.2, hchain⟩
      have hval2 : ∀ x ∈ cur :: acc, is_valid_cell pf x avoid θ = true := by
        intro x hx
        rcases List.mem_cons.mp hx with rfl | hx
        · exact hprops.1
        · exact hval x hx
      have hr := ih cf prev (cur :: acc) res hinv hchain2 hval2 hres
      refine ⟨hr.1, hr.2.1, ?_⟩
      rw [hr.2.2, List.getLast?_cons_cons]

theorem expandStep_inv (pf : Pathfinder) (goal : Pos) (avoid : Bool)
    (θ : ℚ) (cur : Pos) (closed : List Pos)
    (st : List (ℚ × Pos) × List (Pos × Pos) × List (Pos × ℚ)) (off : Pos)
    (hoff : off ∈ neighborOffsets)
    (hinv : CameInv pf avoid θ st.2.1) :
    CameInv pf avoid θ (expandStep pf goal avoid θ cur closed st off).2.1 := by
  have hadj : adjacentCells cur (cur.1 + off.1, cur.2 + off.2) := by
    unfold adjacentCells
    have h1 : cur.1 + off.1 - cur.1 = off.1 := by ring
    have h2 : cur.2 + off.2 - cur.2 = off.2 := by ring
    rw [h1, h2]
    exact hoff
  have hcons : is_valid_cell pf (cur.1 + off.1, cur.2 + off.2) avoid θ = true →
      CameInv pf avoid θ (((cur.1 + off.1, cur.2 + off.2), cur) :: st.2.1) := by
    intro hv pr hpr
    rcases List.mem_cons.mp hpr with rfl | hpr
    · exact ⟨hv, hadj⟩
    · exact hinv pr hpr
  unfold expandStep
  by_cases hv : is_valid_cell pf (cur.1 + off.1, cur.2 + off.2) avoid θ = true
  · simp only [hv, not_true, if_false, ite_false, if_neg, Bool.true_eq_false,
      not_false_iff, ite_true, if_true]
    by_cases hcl : (cur.1 + off.1, cur.2 + off.2) ∈ closed
    · simpa [hcl] using hinv
    · simp only [hcl, if_false, ite_false, not_false_iff, ite_true, if_true]
      cases hg : alistLookup st.2.2 (cur.1 + off.1, cur.2 + off.2) with
      | none => simpa using hcons hv
      | some gN =>
        by_cases ht : (alistLookup st.2.2 cur).getD 0 +
            edge_cost pf cur (cur.1 + off.1, cur.2 + off.2) avoid < gN
        · simpa [ht] using hcons hv
        · simpa [ht] using hinv
  · simpa [hv] using hinv

theorem foldl_expand_inv (pf : Pathfinder) (goal : Pos) (avoid : Bool)
    (θ : ℚ) (cur : Pos) (closed : List Pos) :
    ∀ (offs : List Pos)
      (st : List (ℚ × Pos) × List (Pos × Pos) × List (Pos × ℚ)),
      (∀ o ∈ offs, o ∈ neighborOffsets) →
      CameInv pf avoid θ st.2.1 →
      CameInv pf avoid θ
        ((offs.foldl (expandStep pf goal avoid θ cur closed) st)).2.1 := by
  intro offs
  induction offs with
  | nil => intro st _ h; simpa using h
  | cons o os ih =>
    intro st hsub h
    have h1 := expandStep_inv pf goal avoid θ cur closed st o
      (hsub o (List.mem_cons_self o os)) h
    exact ih _ (fun x hx => hsub x (List.mem_cons_of_mem o hx)) h1

theorem aStarLoop_props (pf : Pathfinder) (goal : Pos) (avoid : Bool) (θ : ℚ) :
    ∀ (fuel : ℕ) (openL : List (ℚ × Pos)) (cf : List (Pos × Pos))
      (g : List (Pos × ℚ)) (closed : List Pos) (res : List Pos),
      CameInv pf avoid θ cf →
      aStarLoop fuel pf goal avoid θ openL cf g closed = some res →
      res ≠ [] ∧ res.getLast? = some goal ∧
      List.Chain' adjacentCells res ∧
      ∀ x ∈ res.tail, is_valid_cell pf x avoid θ = true := by
  intro fuel
  induction fuel with
  | zero =>
    intro openL cf g closed res _ h
    exact absurd h (by simp [aStarLoop])
  | succ n ih =>
    intro openL cf g closed res hinv hres
    rw [aStarLoop] at hres
    split at hres
    · exact absurd hres (by simp)
    next er heq =>
      by_cases hgoal : er.1.2 = goal
      · rw [if_pos hgoal] at hres
        unfold reconstruct_path at hres
        have hrec := reconstructAux_props pf avoid θ (cf.length + 1) cf er.1.2 [] res
          hinv (List.chain'_singleton er.1.2) (by simp) hres
        have hlast : res.getLast? = some goal := by
          rw [hrec.2.2, hgoal]
          rfl
        refine ⟨?_, hlast, hrec.1, hrec.2.1⟩
        intro hnil
        rw [hnil] at hlast
        exact absurd hlast (by simp)
      · rw [if_neg hgoal] at hres
        by_cases hcl : er.1.2 ∈ closed
        · rw [if_pos hcl] at hres
          exact ih er.2 cf g closed res hinv hres
        · rw [if_neg hcl] at hres
          have hinv2 := foldl_expand_inv pf goal avoid θ er.1.2 (er.1.2 :: closed)
            neighborOffsets (er.2, cf, g) (fun o ho => ho) hinv
          exact ih _ _ _ _ res hinv2 hres

/-- Claim C10 — confirmed.  Every path the grid pathfinder returns is a
non-empty sequence of cell centers ending at the (possibly snapped) goal
cell; every two consecutive waypoints are 8-adjacent grid cells, each
coordinate differing by at most one 0.5 m cell step; and every cell after
the first is present in the hazard-cell dict and is not a wall cell
(having passed `_is_valid_cell` when its `came_from` entry was written). -/
theorem C10_path_properties (pf : Pathfinder) (sx sy gx gy : ℚ)
    (avoid_danger : Bool) (danger_threshold : ℚ) (path : List Pos)
    (h : find_path pf sx sy gx gy avoid_danger danger_threshold = some path) :
    path ≠ [] ∧
    (∃ gc, resolveCell pf gx gy = some gc ∧ path.getLast? = some gc) ∧
    List.Chain' (fun a b => adjacentCells a b ∧
      qabs (b.1 - a.1) ≤ 0.5 ∧ qabs (b.2 - a.2) ≤ 0.5) path ∧
    ∀ c ∈ path.tail, c ∉ pf.wallCells ∧ (lookup_cell pf c).isSome = true := by
  unfold find_path at h
  cases hs : resolveCell pf sx sy with
  | none => rw [hs] at h; exact absurd h (by simp)
  | some sc =>
    rw [hs] at h
    cases hg : resolveCell pf gx gy with
    | none => rw [hg] at h; exact absurd h (by simp)
    | some gc =>
      rw [hg] at h
      have hinit : CameInv pf avoid_danger danger_threshold [] := by
        intro pr hpr
        exact absurd hpr (List.not_mem_nil pr)
      have hp := aStarLoop_props pf gc avoid_danger danger_threshold
        (aStarFuel pf) [(0, sc)] [] [(sc, 0)] [] path hinit h
      refine ⟨hp.1, ⟨gc, rfl, hp.2.1⟩, ?_, ?_⟩
      · exact List.Chain'.imp
          (fun a b hab => ⟨hab, adjacentCells_bounds a b hab⟩) hp.2.2.1
      · intro c hc
        exact is_valid_cell_spec pf c avoid_danger danger_threshold (hp.2.2.2 c hc)

/-- Claim C10 — witness: the pathfinder on the corridor returns the
four-cell path, and the theorem's conclusions hold of it. -/
theorem C10_witness :
    find_path pfW 0.25 0.25 1.75 0.25 true 0.8 = some corridorPath ∧
    corridorPath ≠ [] ∧
    (∃ gc, resolveCell pfW 1.75 0.25 = some gc ∧ corridorPath.getLast? = some gc) :=
  ⟨by with_unfolding_all decide,
   (C10_path_properties pfW 0.25 0.25 1.75 0.25 true 0.8 corridorPath
     (by with_unfolding_all decide)).1,
   (C10_path_properties pfW 0.25 0.25 1.75 0.25 true 0.8 corridorPath
     (by with_unfolding_all decide)).2.1⟩
